import Mathlib

/-!
Verification development for the salon LINE-bot repository.

Shallow embedding of the Python modules `api/business_hours.py`,
`api/google_calendar.py`, `api/reservation_flow.py` and `api/faq_menu.py`.
Machine times are modelled exactly: minutes within a day as `Nat`,
timeline positions as seconds (`Int`/`Rat`); Python `float` arithmetic is
modelled by exact rational arithmetic, with comments wherever the binary
rounding of the running program could differ at a knife edge.
-/

namespace Salon

/-- Zero-pad a natural number to two digits, as Python `%02d` / `strftime` do. -/
def pad2 (n : Nat) : String :=
  if n < 10 then "0" ++ toString n else toString n

/-- Zero-pad a year to four digits, as `strftime("%Y")` does on this platform. -/
def pad4 (n : Nat) : String :=
  if n < 10 then "000" ++ toString n
  else if n < 100 then "00" ++ toString n
  else if n < 1000 then "0" ++ toString n
  else toString n

/-- Render minutes-since-midnight as `"HH:MM"`, mirroring
`datetime.strftime('%H:%M')` on a same-day time value. -/
def formatHHMM (m : Nat) : String :=
  pad2 (m / 60) ++ ":" ++ pad2 (m % 60)

/-! ## `api/business_hours.py` -/

/-- One `{start, end}` interval of the settings document.  The Python dict key
`end` is a Lean keyword, so the field is called `endTime`. -/
structure HoursSlot where
  start : String
  endTime : String
  deriving Repr, DecidableEq

/-- One `{weekday, weeks}` rule of `monthly_closed`. -/
structure MonthlyClosedRule where
  weekday : String
  weeks : List Nat
  deriving Repr, DecidableEq

/-- One `{date, hours}` entry of `special_hours` (`sh.get("hours") or []` is
modelled by storing the hours list directly, `None` as `[]`). -/
structure SpecialHoursEntry where
  date : String
  hours : List HoursSlot
  deriving Repr, DecidableEq

/-- The settings document as consumed by `business_hours.py`.
`business_hours` is a JSON object (string keys, no duplicates); it is
modelled as an association list, looked up with default `[]` exactly like
`dict.get(wk, [])`. -/
structure Settings where
  businessHours : List (String × List HoursSlot)
  monthlyClosed : List MonthlyClosedRule
  closedDates : List String
  specialHours : List SpecialHoursEntry
  deriving Repr, DecidableEq

/-- `WEEKDAY_KEYS = ["mon", "tue", "wed", "thu", "fri", "sat", "sun"]`. -/
def WEEKDAY_KEYS : List String :=
  ["mon", "tue", "wed", "thu", "fri", "sat", "sun"]

/-- A Python `datetime.date`: year, month (1-12), day (1-31). -/
structure PyDate where
  year : Nat
  month : Nat
  day : Nat
  deriving Repr, DecidableEq

/-- `date.weekday()` (Monday = 0 … Sunday = 6), computed with Sakamoto's
day-of-week algorithm, which agrees with the proleptic Gregorian calendar
used by Python's `datetime`. -/
def pyWeekday (d : PyDate) : Nat :=
  let t : List Nat := [0, 3, 2, 5, 0, 3, 5, 1, 4, 6, 2, 4]
  let y := if d.month < 3 then d.year - 1 else d.year
  let sunday0 := (y + y / 4 - y / 100 + y / 400 + t.getD (d.month - 1) 0 + d.day) % 7
  (sunday0 + 6) % 7

/-- `d.strftime("%Y-%m-%d")`. -/
def pyDateStr (d : PyDate) : String :=
  pad4 d.year ++ "-" ++ pad2 d.month ++ "-" ++ pad2 d.day

/-- `_weekday_key(d)`: `WEEKDAY_KEYS[d.weekday()]`. -/
def weekdayKey (d : PyDate) : String :=
  WEEKDAY_KEYS.getD (pyWeekday d) ""

/-- The `while day > 7: day -= 7; n += 1` loop of `_nth_weekday_of_month`,
with structural fuel (each iteration lowers `day` by 7, so fuel `day`
always suffices). -/
def nthWeekdayLoopFuel : Nat → Nat → Nat → Nat
  | 0, _, n => n
  | fuel + 1, day, n =>
    if day > 7 then nthWeekdayLoopFuel fuel (day - 7) (n + 1) else n

/-- The loop of `_nth_weekday_of_month`, at its natural fuel. -/
def nthWeekdayLoop (day n : Nat) : Nat :=
  nthWeekdayLoopFuel day day n

/-- `_nth_weekday_of_month(d)`: which calendar occurrence (1-based) of its own
weekday the date is within its month. -/
def nthWeekdayOfMonth (d : PyDate) : Nat :=
  nthWeekdayLoop d.day 1

/-- The `special_hours` scan shared by `is_closed_date` and
`get_hours_for_date`: walk the list; at the first entry whose `date` matches,
either return its non-empty `hours`, or (empty `hours`) `break`, i.e. stop
scanning with no result. -/
def findSpecial (entries : List SpecialHoursEntry) (dateStr : String) :
    Option (List HoursSlot) :=
  match entries with
  | [] => none
  | e :: rest =>
    if e.date = dateStr then
      if e.hours = [] then none else some e.hours
    else findSpecial rest dateStr

/-- `dict.get(wk, [])` on the `business_hours` object. -/
def lookupBusinessHours (s : Settings) (wk : String) : List HoursSlot :=
  ((s.businessHours.lookup wk).getD [])

/-- The `monthly_closed` test: some rule has this weekday key and contains
this occurrence number in its `weeks`. -/
def monthlyClosedHit (s : Settings) (wk : String) (nth : Nat) : Bool :=
  s.monthlyClosed.any (fun mc => mc.weekday = wk && nth ∈ mc.weeks)

/-- `is_closed_date(d)`; the settings document is passed explicitly instead of
read through the module-level cache. -/
def isClosedDate (s : Settings) (d : PyDate) : Bool :=
  let dateStr := pyDateStr d
  if dateStr ∈ s.closedDates then true
  else
    match findSpecial s.specialHours dateStr with
    | some _ => false
    | none =>
      let wk := weekdayKey d
      let nth := nthWeekdayOfMonth d
      if monthlyClosedHit s wk nth then true
      else if lookupBusinessHours s wk = [] then true
      else false

/-- `is_open_date(d)`. -/
def isOpenDate (s : Settings) (d : PyDate) : Bool :=
  !(isClosedDate s d)

/-- `_normalize_slot(slot)`: truncate `start`/`end` to five characters. -/
def normalizeSlot (slot : HoursSlot) : HoursSlot :=
  ⟨slot.start.take 5, slot.endTime.take 5⟩

/-- `get_hours_for_date(d)`. -/
def getHoursForDate (s : Settings) (d : PyDate) : List HoursSlot :=
  let dateStr := pyDateStr d
  if dateStr ∈ s.closedDates then []
  else
    match findSpecial s.specialHours dateStr with
    | some hours => hours.map normalizeSlot
    | none =>
      let wk := weekdayKey d
      let nth := nthWeekdayOfMonth d
      if monthlyClosedHit s wk nth then []
      else
        let slots := lookupBusinessHours s wk
        if slots = [] then [] else slots.map normalizeSlot

/-! ## `api/google_calendar.py` — availability-gap algorithm

Event and business-period times on one date are modelled as minutes since
midnight of that date (`tz.localize(datetime.combine(date, time))` fixes a
common Tokyo offset, so differences and comparisons between same-date
datetimes reduce to their minute values). -/

/-- A `{"start": h, "end": h}` business-period dict (hours). -/
structure BusinessPeriod where
  startHour : Nat
  endHour : Nat
  deriving Repr, DecidableEq

/-- An available-period dict `{'start': "HH:MM", 'end': "HH:MM"}` as produced
by `_find_available_periods` (Python key `end` spelled `endTime`). -/
structure GPeriod where
  start : String
  endTime : String
  deriving Repr, DecidableEq

/-- A calendar event reduced to what `_find_available_periods` reads: its
start/end datetimes, as minutes within the date being processed. -/
structure EvtInterval where
  startMin : Nat
  endMin : Nat
  deriving Repr, DecidableEq

/-- One iteration of the event loop of `_find_available_periods`: state is
`(business_start, available_periods)`; `bEnd` is the fixed `business_end`.
The overlap test is the source's `event_start <= business_end and
event_end >= business_start`. -/
def findStep (bEnd : Nat) (st : Nat × List GPeriod) (e : EvtInterval) :
    Nat × List GPeriod :=
  let bStart := st.1
  let acc := st.2
  if e.startMin ≤ bEnd ∧ bStart ≤ e.endMin then
    if bStart < e.startMin then
      (e.endMin, acc ++ [⟨formatHHMM bStart, formatHHMM e.startMin⟩])
    else if e.startMin = bStart then
      (e.endMin, acc)
    else
      (bStart, acc)
  else
    (bStart, acc)

/-- `_find_available_periods(date, business_period, events)`. -/
def findAvailablePeriods (bp : BusinessPeriod) (events : List EvtInterval) :
    List GPeriod :=
  let bStart := bp.startHour * 60
  let bEnd := bp.endHour * 60
  let res := events.foldl (findStep bEnd) (bStart, [])
  if res.1 < bEnd then res.2 ++ [⟨formatHHMM res.1, formatHHMM bEnd⟩] else res.2

/-! ## `api/google_calendar.py` — slot generation and modification slots -/

/-- A calendar event as consumed by `_generate_all_slots` and
`get_available_slots_for_modification`: start date (`event_start.date()`
rendered `"YYYY-MM-DD"`), start/end minutes within that date, and the
`summary` and `description` strings. -/
structure CalEvent where
  dateStr : String
  startMin : Nat
  endMin : Nat
  summary : String
  description : String
  deriving Repr, DecidableEq

/-- A generated slot dict `{date, time, end_time, available}`. -/
structure SlotRec where
  date : String
  time : String
  endTime : String
  available : Bool
  deriving Repr, DecidableEq

/-- The fixed business periods of `_generate_all_slots`:
9:00-12:00 and 13:00-18:00. -/
def businessPeriodsFixed : List BusinessPeriod :=
  [⟨9, 12⟩, ⟨13, 18⟩]

/-- Stable insertion used to model `date_events.sort(key=start datetime)`
(Python's sort is stable; after the same-date filter the key reduces to
`startMin`). -/
def insertByStart (e : CalEvent) : List CalEvent → List CalEvent
  | [] => [e]
  | x :: xs =>
    if e.startMin ≤ x.startMin then e :: x :: xs else x :: insertByStart e xs

/-- Stable sort by event start time. -/
def sortEventsByStart (l : List CalEvent) : List CalEvent :=
  l.foldr insertByStart []

/-- `date(y, m, d) <= date(y', m', d')`: Python compares dates
lexicographically by (year, month, day). -/
def dateLe (a b : PyDate) : Bool :=
  if a.year ≠ b.year then a.year < b.year
  else if a.month ≠ b.month then a.month < b.month
  else a.day ≤ b.day

/-- Day count of a proleptic-Gregorian month, as `datetime` uses. -/
def daysInMonth (y m : Nat) : Nat :=
  if m = 2 then (if y % 4 = 0 ∧ (y % 100 ≠ 0 ∨ y % 400 = 0) then 29 else 28)
  else if m = 4 ∨ m = 6 ∨ m = 9 ∨ m = 11 then 30
  else 31

/-- `current_date += timedelta(days=1)` on a valid date. -/
def succDate (d : PyDate) : PyDate :=
  if d.day < daysInMonth d.year d.month then ⟨d.year, d.month, d.day + 1⟩
  else if d.month < 12 then ⟨d.year, d.month + 1, 1⟩
  else ⟨d.year + 1, 1, 1⟩

/-- Days since 1970-01-01 of a civil date (Hinnant's `days_from_civil`),
used only to bound the length of the date loop. -/
def daysFromCivil (y m d : Int) : Int :=
  let y := if m ≤ 2 then y - 1 else y
  let era := (if y ≥ 0 then y else y - 399) / 400
  let yoe := y - era * 400
  let doy := (153 * (if m > 2 then m - 3 else m + 9) + 2) / 5 + d - 1
  let doe := yoe * 365 + yoe / 4 - yoe / 100 + doy
  era * 146097 + doe - 719468

/-- The `while current_date <= end_date_only` loop of `_generate_all_slots`,
as a fuelled recursion (the fuel below always covers the whole range). -/
def dateRangeAux : Nat → PyDate → PyDate → List PyDate
  | 0, _, _ => []
  | n + 1, cur, stop =>
    if dateLe cur stop then cur :: dateRangeAux n (succDate cur) stop else []

/-- All dates of `[startD, endD]` in loop order. -/
def dateRange (startD endD : PyDate) : List PyDate :=
  let fuel :=
    (daysFromCivil endD.year endD.month endD.day
      - daysFromCivil startD.year startD.month startD.day).toNat + 1
  dateRangeAux fuel startD endD

/-- The per-date body of `_generate_all_slots`: skip Sundays (weekday 6),
filter the events to this date, sort them by start time, and run the gap
algorithm for each fixed business period, wrapping each period as a slot. -/
def generateSlotsForDate (d : PyDate) (events : List CalEvent) : List SlotRec :=
  if pyWeekday d ≠ 6 then
    let dateEvents := events.filter (fun e => e.dateStr = pyDateStr d)
    let sorted := sortEventsByStart dateEvents
    businessPeriodsFixed.flatMap (fun bp =>
      (findAvailablePeriods bp (sorted.map (fun e => ⟨e.startMin, e.endMin⟩))).map
        (fun p => ⟨pyDateStr d, p.start, p.endTime, true⟩))
  else []

/-- `_generate_all_slots(start_date, end_date, events)` (the `events or []`
`None` default is modelled by passing `[]`). -/
def generateAllSlots (startD endD : PyDate) (events : List CalEvent) :
    List SlotRec :=
  (dateRange startD endD).flatMap (fun d => generateSlotsForDate d events)

/-! ### The summary regex of `_filter_events_by_staff`

`re.search(r"^\[予約\] (.+) - (.+) \((.+)\)$", summary)` with greedy groups
and no DOTALL/MULTILINE.  `.` never matches a newline; `$` also matches just
before one trailing newline, which is modelled by stripping it first.
Greediness with backtracking = the largest feasible split position. -/

/-- `.+` can match a character list iff it is non-empty and newline-free. -/
def dotPlus (xs : List Char) : Bool :=
  xs ≠ [] && !xs.contains '\n'

/-- All indices at which `sep` occurs in `xs`, largest first (the order in
which a greedy group considers its split points). -/
def occurrencesDesc (sep xs : List Char) : List Nat :=
  ((List.range (xs.length + 1)).filter (fun i => sep.isPrefixOf (xs.drop i))).reverse

/-- Match `(.+) \((.+)\)$` against `xs`, returning (group2, group3). -/
def matchTailParen (xs : List Char) : Option (List Char × List Char) :=
  (occurrencesDesc [' ', '('] xs).findSome? fun i =>
    let g2 := xs.take i
    let rest := xs.drop (i + 2)
    if dotPlus g2 && rest.getLast? = some ')' && dotPlus rest.dropLast then
      some (g2, rest.dropLast)
    else none

/-- Match the whole summary pattern, returning (service, client, staff). -/
def parseSummary (summary : String) : Option (String × String × String) :=
  let cs0 := summary.data
  let cs := if cs0.getLast? = some '\n' then cs0.dropLast else cs0
  let pre := "[予約] ".data
  if pre.isPrefixOf cs then
    let r := cs.drop pre.length
    (occurrencesDesc [' ', '-', ' '] r).findSome? fun i =>
      let g1 := r.take i
      let rest := r.drop (i + 3)
      if dotPlus g1 then
        match matchTailParen rest with
        | some (g2, g3) => some (String.mk g1, String.mk g2, String.mk g3)
        | none => none
      else none
  else none

/-- `_filter_events_by_staff(events, staff_name)`. -/
def filterEventsByStaff (events : List CalEvent) (staffName : String) :
    List CalEvent :=
  if events = [] then []
  else events.filter fun e =>
    match parseSummary e.summary with
    | some (_, _, st) => st = staffName
    | none => false

/-- Python `needle in haystack` substring test. -/
def strContains (haystack needle : String) : Bool :=
  (List.range (haystack.data.length + 1)).any fun i =>
    needle.data.isPrefixOf (haystack.data.drop i)

/-- `get_available_slots_for_modification(date_str, exclude_reservation_id,
staff_name)` on the connected path (`serviceOk` models
`self.service and calendar_id` being truthy; when false the source falls
back to `_generate_fallback_slots(date, date + 1 day)`).  `events` stands for
the result of `get_events_for_date(date_str, staff_name)`. -/
def getAvailableSlotsForModification (serviceOk : Bool) (d : PyDate)
    (events : List CalEvent) (excludeId : Option String)
    (staffName : Option String) : List SlotRec :=
  if !serviceOk then generateAllSlots d (succDate d) []
  else
    let allEvents :=
      match staffName with
      | some s => filterEventsByStaff events s
      | none => events
    let otherEvents :=
      match excludeId with
      | some rid =>
        allEvents.filter (fun e => !strContains e.description ("予約ID: " ++ rid))
      | none => allEvents
    generateAllSlots d d otherEvents

/-! ## Python `datetime` parsing and arithmetic

`datetime.strptime` compiles the format into a regex; the relevant field
patterns are `%Y ↦ \d\d\d\d`, `%m ↦ 1[0-2]|0[1-9]|[1-9]`,
`%d ↦ 3[01]|[12]\d|0[1-9]|[1-9]`, `%H ↦ 2[0-3]|[0-1]\d|\d`,
`%M ↦ [0-5]\d|\d`, matched left-to-right with backtracking, after which the
whole input must have been consumed and the `datetime` constructor checks the
day against the month length.  Alternations are modelled as candidate lists
in priority order (longest first), sequenced with `List.findSome?`, which is
exactly regex backtracking; and since every lower-priority alternative
consumes fewer characters, requiring the leftover to be empty at the end
coincides with Python's "unconverted data remains" check on the first match. -/

/-- Numeric value of a decimal digit character. -/
def digitVal (c : Char) : Nat := c.toNat - 48

/-- Match exactly `n` decimal digits. -/
def matchNDigits (n : Nat) (xs : List Char) : Option (Nat × List Char) :=
  let pre := xs.take n
  if pre.length = n ∧ pre.all Char.isDigit then
    some (pre.foldl (fun a c => a * 10 + digitVal c) 0, xs.drop n)
  else none

/-- Match one expected literal character. -/
def matchLit (c : Char) (xs : List Char) : Option (List Char) :=
  match xs with
  | x :: rest => if x = c then some rest else none
  | [] => none

/-- Python's Unicode whitespace class, as matched by `\s` on `str` and
stripped by `str.strip()`: ASCII control whitespace (0x09-0x0d,
0x1c-0x1f), space, NEL (0x85), NBSP (0xa0), Ogham space (0x1680), the
Unicode space block (0x2000-0x200a), line/paragraph separators, narrow
NBSP, medium mathematical space and the ideographic space (0x3000). -/
def pyIsSpace (c : Char) : Bool :=
  (0x09 ≤ c.toNat ∧ c.toNat ≤ 0x0d) ∨ (0x1c ≤ c.toNat ∧ c.toNat ≤ 0x1f)
    ∨ c.toNat = 0x20 ∨ c.toNat = 0x85 ∨ c.toNat = 0xa0 ∨ c.toNat = 0x1680
    ∨ (0x2000 ≤ c.toNat ∧ c.toNat ≤ 0x200a) ∨ c.toNat = 0x2028
    ∨ c.toNat = 0x2029 ∨ c.toNat = 0x202f ∨ c.toNat = 0x205f
    ∨ c.toNat = 0x3000

/-- `\s+` — one or more whitespace characters, candidates in greedy order
(`strptime` rewrites literal whitespace in a format to `\s+`, and
`_parse_time_range` uses `\s+` directly). -/
def matchSpaces1 (xs : List Char) : List (List Char) :=
  let w := (xs.takeWhile pyIsSpace).length
  ((List.range w).map (fun i => xs.drop (w - i))).filter (fun _ => w ≥ 1)

/-- `%m`: `1[0-2]|0[1-9]|[1-9]`, candidates in priority order. -/
def matchMonthField (xs : List Char) : List (Nat × List Char) :=
  (match xs with
   | '1' :: c :: rest =>
     if '0' ≤ c ∧ c ≤ '2' then [(10 + digitVal c, rest)] else []
   | _ => []) ++
  (match xs with
   | '0' :: c :: rest =>
     if '1' ≤ c ∧ c ≤ '9' then [(digitVal c, rest)] else []
   | _ => []) ++
  (match xs with
   | c :: rest => if '1' ≤ c ∧ c ≤ '9' then [(digitVal c, rest)] else []
   | [] => [])

/-- `%d`: `3[01]|[1-2]\d|0[1-9]|[1-9]`. -/
def matchDayField (xs : List Char) : List (Nat × List Char) :=
  (match xs with
   | '3' :: c :: rest =>
     if c = '0' ∨ c = '1' then [(30 + digitVal c, rest)] else []
   | _ => []) ++
  (match xs with
   | a :: c :: rest =>
     if ('1' ≤ a ∧ a ≤ '2') ∧ c.isDigit then
       [(digitVal a * 10 + digitVal c, rest)]
     else []
   | _ => []) ++
  (match xs with
   | '0' :: c :: rest =>
     if '1' ≤ c ∧ c ≤ '9' then [(digitVal c, rest)] else []
   | _ => []) ++
  (match xs with
   | c :: rest => if '1' ≤ c ∧ c ≤ '9' then [(digitVal c, rest)] else []
   | [] => [])

/-- `%H`: `2[0-3]|[0-1]\d|\d`. -/
def matchHourField (xs : List Char) : List (Nat × List Char) :=
  (match xs with
   | '2' :: c :: rest =>
     if '0' ≤ c ∧ c ≤ '3' then [(20 + digitVal c, rest)] else []
   | _ => []) ++
  (match xs with
   | a :: c :: rest =>
     if (a = '0' ∨ a = '1') ∧ c.isDigit then
       [(digitVal a * 10 + digitVal c, rest)]
     else []
   | _ => []) ++
  (match xs with
   | c :: rest => if c.isDigit then [(digitVal c, rest)] else []
   | [] => [])

/-- `%M`: `[0-5]\d|\d`. -/
def matchMinuteField (xs : List Char) : List (Nat × List Char) :=
  (match xs with
   | a :: c :: rest =>
     if ('0' ≤ a ∧ a ≤ '5') ∧ c.isDigit then
       [(digitVal a * 10 + digitVal c, rest)]
     else []
   | _ => []) ++
  (match xs with
   | c :: rest => if c.isDigit then [(digitVal c, rest)] else []
   | [] => [])

/-- A naive `datetime` at minute resolution, as produced by
`datetime.strptime(s, "%Y-%m-%d %H:%M")`. -/
structure PyDateTimeMin where
  year : Nat
  month : Nat
  day : Nat
  hour : Nat
  minute : Nat
  deriving Repr, DecidableEq

/-- `datetime.strptime(s, "%Y-%m-%d %H:%M")`; `none` models `ValueError`. -/
def strptimeYmdHM (s : String) : Option PyDateTimeMin :=
  (matchNDigits 4 s.data).bind fun yr =>
  (matchLit '-' yr.2).bind fun r2 =>
  (matchMonthField r2).findSome? fun mo =>
  (matchLit '-' mo.2).bind fun r4 =>
  (matchDayField r4).findSome? fun dy =>
  (matchSpaces1 dy.2).findSome? fun r6 =>
  (matchHourField r6).findSome? fun hr =>
  (matchLit ':' hr.2).bind fun r8 =>
  (matchMinuteField r8).findSome? fun mi =>
  if mi.2 = [] ∧ 1 ≤ yr.1 ∧ dy.1 ≤ daysInMonth yr.1 mo.1 then
    some ⟨yr.1, mo.1, dy.1, hr.1, mi.1⟩
  else none

/-- Seconds since the epoch (in the fixed Tokyo offset timeline) of a naive
minute-resolution datetime.  `pytz`'s Asia/Tokyo zone has a constant +9:00
offset for all modern dates, so differences of two Tokyo-localized datetimes
equal the differences of their naive values. -/
def dtMinToSec (t : PyDateTimeMin) : Int :=
  86400 * daysFromCivil t.year t.month t.day + 3600 * t.hour + 60 * t.minute

/-- The value of `datetime.now(tokyo_tz)`: civil components plus fractional
seconds (seconds + microseconds) as an exact rational. -/
structure PyNow where
  year : Nat
  month : Nat
  day : Nat
  hour : Nat
  minute : Nat
  second : ℚ
  deriving Repr, DecidableEq

/-- Timeline position of `now`, in seconds. -/
def nowToSecQ (t : PyNow) : ℚ :=
  ((86400 * daysFromCivil t.year t.month t.day
    + 3600 * t.hour + 60 * t.minute : Int) : ℚ) + t.second

/-- `now.strftime('%Y-%m-%d %H:%M')`. -/
def nowStrftime (t : PyNow) : String :=
  pad4 t.year ++ "-" ++ pad2 t.month ++ "-" ++ pad2 t.day ++ " "
    ++ pad2 t.hour ++ ":" ++ pad2 t.minute

/-- Python `int()` on a rational: truncation toward zero. -/
def pyTrunc (q : ℚ) : Int := q.num.tdiv q.den

/-- Python float `%` (sign of the divisor) on exact rationals. -/
def pyFMod (a b : ℚ) : ℚ := a - b * ⌊a / b⌋

/-! ## `api/reservation_flow.py` — advance-booking rule

`_check_advance_booking_time(date_str, start_time)` compares
`hours_until_booking = (requested - now).total_seconds() / 3600` against the
float literal `1.99`.  The float arithmetic is modelled exactly over ℚ with
`1.99 = 199/100`; at every whole-second difference the binary-float
comparison and the exact comparison agree (the spacing of the quotients
`s/3600` around `1.99` is ≈ 2.8e-4, ten orders of magnitude above the double
rounding error, and `7164/3600` rounds to the same double as `1.99`). -/

/-- `needed_minutes = int(needed_hours * 60)` with
`needed_hours = 2 - hours_until_booking`, over exact rationals.  Note: at
`hours_until_booking = 119/60` Python's doubles evaluate
`(2 - 7140/3600) * 60` to `0.9999999999999964`, so the running program gets
`0` here where exact arithmetic gives `1`. -/
def advanceNeededMinutes (hoursUntil : ℚ) : Int :=
  pyTrunc ((2 - hoursUntil) * 60)

/-- The `time_message` rendering of `_check_advance_booking_time`. -/
def advanceTimeMessage (neededMinutes : Int) : String :=
  if neededMinutes ≤ 0 then "数分"
  else if neededMinutes < 60 then toString neededMinutes ++ "分"
  else
    let hours := neededMinutes / 60
    let minutes := neededMinutes % 60
    if minutes = 0 then toString hours ++ "時間"
    else toString hours ++ "時間" ++ toString minutes ++ "分"

/-- The rejection message of `_check_advance_booking_time`. -/
def advanceRejectMessage (dateStr startTime : String) (now : PyNow)
    (neededMinutes : Int) : String :=
  "申し訳ございませんが、ご予約は来店の2時間前までにお取りいただけます。\n\n"
    ++ "📅 ご希望の日時：" ++ dateStr ++ " " ++ startTime ++ " (東京時間)\n"
    ++ "⏰ 現在時刻：" ++ nowStrftime now ++ " (東京時間)\n"
    ++ "⏱️ 必要時間：あと" ++ advanceTimeMessage neededMinutes ++ "お待ちください\n\n"
    ++ "2時間以上先の時間帯をご選択ください。"

/-- `_check_advance_booking_time(date_str, start_time)`, with `now` passed
explicitly.  A `strptime` failure lands in the `except` branch, which
returns `(False, "時間の確認中にエラーが発生しました。")`. -/
def checkAdvanceBookingTime (dateStr startTime : String) (now : PyNow) :
    Bool × Option String :=
  match strptimeYmdHM (dateStr ++ " " ++ startTime) with
  | none => (false, some "時間の確認中にエラーが発生しました。")
  | some req =>
    let diffSec : ℚ := ((dtMinToSec req : Int) : ℚ) - nowToSecQ now
    let hoursUntil := diffSec / 3600
    if hoursUntil < 199 / 100 then
      (false, some (advanceRejectMessage dateStr startTime now
        (advanceNeededMinutes hoursUntil)))
    else (true, none)

/-! ## `api/reservation_flow.py` — 2-hour cancellation/modification lockout -/

/-- The reservation dict carried by the cancellation/modification flows
(fields read by the lockout and commit paths). -/
structure ReservationRec where
  reservationId : String
  date : String
  startTime : String
  endTime : String
  service : String
  staff : String
  price : Nat
  deriving Repr, DecidableEq

/-- Helper for `f"{n:,}"`: regroup a reversed digit list in blocks of three,
inserting commas. -/
def thousandsGroup (acc : List Char) (rev : List Char) : List Char :=
  match rev with
  | a :: b :: c :: d :: rest => thousandsGroup (',' :: c :: b :: a :: acc) (d :: rest)
  | _ => rev.reverse ++ acc

/-- Thousands-grouped rendering of `f"{n:,}"`. -/
def formatThousands (n : Nat) : String :=
  String.mk (thousandsGroup [] (toString n).data.reverse)

/-- The remaining-time line `{int(sec/3600)}時間{int((sec%3600)/60)}分` used by
both lockout messages (`sec` is the float `time_diff.total_seconds()`,
modelled exactly). -/
def lockoutRemainTime (diffSec : ℚ) : String :=
  toString (pyTrunc (diffSec / 3600)) ++ "時間"
    ++ toString (pyTrunc (pyFMod diffSec 3600 / 60)) ++ "分"

/-- The lockout refusal message of `_execute_reservation_cancellation`. -/
def cancellationLockoutMessage (r : ReservationRec) (now : PyNow)
    (diffSec : ℚ) : String :=
  "申し訳ございませんが、予約開始時刻の2時間以内のキャンセルはお受けできません。\n\n"
    ++ "📅 予約日時：" ++ r.date ++ " " ++ r.startTime ++ "\n"
    ++ "⏰ 現在時刻：" ++ nowStrftime now ++ "\n"
    ++ "⏱️ 残り時間：" ++ lockoutRemainTime diffSec ++ "\n\n"
    ++ "緊急の場合は直接サロンまでお電話ください。"

/-- The lockout refusal message of `_handle_modification_confirmation`. -/
def modificationLockoutMessage (r : ReservationRec) (now : PyNow)
    (diffSec : ℚ) : String :=
  "申し訳ございませんが、予約開始時刻の2時間以内の変更はお受けできません。\n\n"
    ++ "📅 予約日時：" ++ r.date ++ " " ++ r.startTime ++ "\n"
    ++ "⏰ 現在時刻：" ++ nowStrftime now ++ "\n"
    ++ "⏱️ 残り時間：" ++ lockoutRemainTime diffSec ++ "\n"
    ++ "💰 料金：" ++ formatThousands r.price ++ "円\n\n"
    ++ "緊急の場合は直接サロンまでお電話ください。"

/-- The shared lockout gate: parse the reservation's date and start time and
compute `time_diff = reservation_datetime - current_time`; refuse iff
`time_diff.total_seconds() <= 7200`.  A parse failure is caught and logged in
the source and the operation continues, which `none` models as well. -/
def lockoutDiffSec (r : ReservationRec) (now : PyNow) : Option ℚ :=
  match strptimeYmdHM (r.date ++ " " ++ r.startTime) with
  | none => none
  | some rdt => some (((dtMinToSec rdt : Int) : ℚ) - nowToSecQ now)

/-- The commit path of `_execute_reservation_cancellation` after the lockout
gate (sheets update, calendar delete, notification,
`del self.user_states[user_id]`, receipt).  `sheetsOk` is the result of
`update_reservation_status`; the calendar deletion and the notification are
best-effort (logged only) and do not influence state or reply.  A missing
user state makes `del` raise `KeyError`, caught by the outer `except`, which
replies with the generic error and leaves the map unchanged. -/
def executeReservationCancellationCommit {σ : Type}
    (userStates : List (String × σ)) (userId : String)
    (r : ReservationRec) (sheetsOk : Bool) : List (String × σ) × String :=
  if !sheetsOk then
    (userStates,
      "申し訳ございません。キャンセル処理中にエラーが発生しました。\nスタッフまでお問い合わせください。")
  else if (userStates.lookup userId).isSome then
    (userStates.filter (fun p => p.1 ≠ userId),
      "✅ 予約のキャンセルが完了しました！\n\n📋 キャンセル内容：\n🆔 予約ID："
        ++ r.reservationId ++ "\n📅 日時：" ++ r.date ++ " " ++ r.startTime
        ++ "~" ++ r.endTime ++ "\n💇 サービス：" ++ r.service
        ++ "\n👨‍💼 担当者：" ++ r.staff ++ "\n\nまたのご利用をお待ちしております。")
  else
    (userStates,
      "申し訳ございません。キャンセル処理中にエラーが発生しました。\nスタッフまでお問い合わせください。")

/-- Result of `_execute_reservation_cancellation`: the (possibly updated)
conversation-state map and the reply text. -/
def executeReservationCancellation {σ : Type} (userStates : List (String × σ))
    (userId : String) (r : ReservationRec) (now : PyNow) (sheetsOk : Bool) :
    List (String × σ) × String :=
  match lockoutDiffSec r now with
  | some diff =>
    if diff ≤ 7200 then (userStates, cancellationLockoutMessage r now diff)
    else executeReservationCancellationCommit userStates userId r sheetsOk
  | none => executeReservationCancellationCommit userStates userId r sheetsOk

/-- `_handle_modification_confirmation`, up to its lockout gate.  `message` is
the user's reply; the keyword groups come from `keywords.json`.  `proceed` is
the continuation of the handler past the gate (availability re-check and
type-specific committers), passed as a value since the claim under study
concerns the gate itself; every path through `proceed` is reached only when
the gate admits the attempt. -/
def handleModificationConfirmation {σ : Type} (yesKeywords noKeywords
    cancelKeywords : List String) (message : String)
    (userStates : List (String × σ)) (userId : String) (r : ReservationRec)
    (now : PyNow) (proceed : List (String × σ) × String) :
    List (String × σ) × String :=
  if yesKeywords.any (fun k => strContains message k) then
    match lockoutDiffSec r now with
    | some diff =>
      if diff ≤ 7200 then (userStates, modificationLockoutMessage r now diff)
      else proceed
    | none => proceed
  else if (noKeywords.any (fun k => strContains message k))
      ∨ (cancelKeywords.any (fun k => strContains message k)) then
    (userStates.filter (fun p => p.1 ≠ userId),
      "変更をキャンセルいたします。予約はそのまま残ります。\nまたのご利用をお待ちしております。")
  else
    (userStates, "「はい」または「確定」で変更を確定するか、「キャンセル」で中止してください。")

/-! ## `api/reservation_flow.py` — time-string helpers -/

/-- The validating `datetime.strptime(normalized_time, "%H:%M")` call of
`_normalize_time_format`: does `"%H:%M"` fully match the string? -/
def strptimeHMValid (s : String) : Bool :=
  ((matchHourField s.data).findSome? fun hr =>
    (matchLit ':' hr.2).bind fun r =>
    (matchMinuteField r).findSome? fun mi =>
    if mi.2 = [] then some () else none).isSome

/-- Python `str.split(sep)` for a one-character separator, on char lists. -/
def splitOnChar (c : Char) : List Char → List (List Char)
  | [] => [[]]
  | x :: xs =>
    if x = c then [] :: splitOnChar c xs
    else
      match splitOnChar c xs with
      | ys :: rest => (x :: ys) :: rest
      | [] => [[x]]

/-- `_normalize_time_format(time_str)`; `none` models the `return None`
paths (including the `ValueError` of the validating `strptime`). -/
def normalizeTimeFormat (timeStr : String) : Option String :=
  match (splitOnChar ':' timeStr.data).map String.mk with
  | [hourPart, minutePart] =>
    if minutePart.length ≠ 2 ∨ ¬ minutePart.data.all Char.isDigit then none
    else
      let normHour :=
        if hourPart.length = 1 then some ("0" ++ hourPart)
        else if hourPart.length = 2 ∧ hourPart.data.all Char.isDigit then
          some hourPart
        else none
      match normHour with
      | none => none
      | some nh =>
        let nt := nh ++ ":" ++ minutePart
        if strptimeHMValid nt then some nt else none
  | _ => none

/-- `\d{1,2}` as a group string, candidates in greedy order. -/
def matchDigits12 (xs : List Char) : List (String × List Char) :=
  (match xs with
   | a :: b :: rest =>
     if a.isDigit ∧ b.isDigit then [(String.mk [a, b], rest)] else []
   | _ => []) ++
  (match xs with
   | a :: rest => if a.isDigit then [(String.mk [a], rest)] else []
   | [] => [])

/-- `\d{1,2}:\d{2}` as a group string, candidates in greedy order. -/
def matchTimeHM (xs : List Char) : List (String × List Char) :=
  (matchDigits12 xs).flatMap fun hr =>
    match matchLit ':' hr.2 with
    | some r1 =>
      match matchNDigits 2 r1 with
      | some (_, r2) =>
        [(hr.1 ++ ":" ++ String.mk (r1.take 2), r2)]
      | none => []
    | none => []

/-- `[~～]`. -/
def matchTilde (xs : List Char) : Option (List Char) :=
  match xs with
  | c :: rest => if c = '~' ∨ c = '～' then some rest else none
  | [] => none

/-- `str.strip()`. -/
def pyStrip (s : String) : List Char :=
  ((s.data.dropWhile pyIsSpace).reverse.dropWhile pyIsSpace).reverse

/-- Pattern 1/2 of `_parse_time_range`:
`^(\d{1,2}:\d{2})SEP(\d{1,2}:\d{2})$` where `SEP` is `[~～]` (`tilde = true`)
or `\s+` (`tilde = false`). -/
def patTimeTime (tilde : Bool) (xs : List Char) : Option (String × String) :=
  (matchTimeHM xs).findSome? fun g1 =>
    let seps := if tilde then (matchTilde g1.2).toList else matchSpaces1 g1.2
    seps.findSome? fun r2 =>
      (matchTimeHM r2).findSome? fun g2 =>
        if g2.2 = [] then some (g1.1, g2.1) else none

/-- Pattern 3/4: `^(\d{1,2})SEP(\d{1,2})$`. -/
def patHourHour (tilde : Bool) (xs : List Char) : Option (String × String) :=
  (matchDigits12 xs).findSome? fun g1 =>
    let seps := if tilde then (matchTilde g1.2).toList else matchSpaces1 g1.2
    seps.findSome? fun r2 =>
      (matchDigits12 r2).findSome? fun g2 =>
        if g2.2 = [] then some (g1.1, g2.1) else none

/-- Pattern 5/6: `^(\d{1,2})時SEP(\d{1,2})時$`. -/
def patJpHourHour (tilde : Bool) (xs : List Char) : Option (String × String) :=
  (matchDigits12 xs).findSome? fun g1 =>
    (matchLit '時' g1.2).bind fun r1 =>
      let seps := if tilde then (matchTilde r1).toList else matchSpaces1 r1
      seps.findSome? fun r2 =>
        (matchDigits12 r2).findSome? fun g2 =>
          (matchLit '時' g2.2).bind fun r3 =>
            if r3 = [] then some (g1.1, g2.1) else none

/-- Pattern 7/8: `^(\d{1,2}:\d{2})SEP(\d{1,2})$`. -/
def patTimeHour (tilde : Bool) (xs : List Char) : Option (String × String) :=
  (matchTimeHM xs).findSome? fun g1 =>
    let seps := if tilde then (matchTilde g1.2).toList else matchSpaces1 g1.2
    seps.findSome? fun r2 =>
      (matchDigits12 r2).findSome? fun g2 =>
        if g2.2 = [] then some (g1.1, g2.1) else none

/-- Normalize both groups of a matched pattern; `mapFst`/`mapSnd` say whether
the group is used directly or as `f"{group}:00"`. -/
def normGroups (hourOnly1 hourOnly2 : Bool) (p : Option (String × String)) :
    Option (String × String) :=
  match p with
  | some (a, b) =>
    let a' := normalizeTimeFormat (if hourOnly1 then a ++ ":00" else a)
    let b' := normalizeTimeFormat (if hourOnly2 then b ++ ":00" else b)
    match a', b' with
    | some s, some e => some (s, e)
    | _, _ => none
  | none => none

/-- `_parse_time_range(text)`: try the eight anchored patterns in source
order, falling through when the regex does not match or a group fails to
normalize; `(none, none)` is the final `return None, None`. -/
def parseTimeRange (text : String) : Option String × Option String :=
  let xs := pyStrip text
  let result :=
    (normGroups false false (patTimeTime true xs)).orElse fun _ =>
    (normGroups false false (patTimeTime false xs)).orElse fun _ =>
    (normGroups true true (patHourHour true xs)).orElse fun _ =>
    (normGroups true true (patHourHour false xs)).orElse fun _ =>
    (normGroups true true (patJpHourHour true xs)).orElse fun _ =>
    (normGroups true true (patJpHourHour false xs)).orElse fun _ =>
    (normGroups false true (patTimeHour true xs)).orElse fun _ =>
    (normGroups false true (patTimeHour false xs))
  match result with
  | some (s, e) => (some s, some e)
  | none => (none, none)

/-! ## `api/reservation_flow.py` — final-availability race guards -/

/-- An entry of the operational `services.json` catalogue as read by the
reservation flow (`self.services[service_id]`). -/
structure ServiceRec where
  name : Option String
  duration : Option Nat
  price : Option Nat
  deriving Repr, DecidableEq

/-- The `for service_id, service_data in self.services.items()` scan matching
on `service_data.get("name") == service_name`; `none` models the empty
`service_info = {}`. -/
def lookupServiceByName (services : List (String × ServiceRec))
    (serviceName : String) : Option ServiceRec :=
  (services.find? (fun p => p.2.name = some serviceName)).map (·.2)

/-- The `reservation_data` / `reservation` dict, with `none` for absent keys
(`dict[k]` on an absent key raises `KeyError`; `dict.get(k, d)` yields `d`). -/
structure ResvDataDict where
  reservationId : Option String
  date : Option String
  time : Option String
  startTime : Option String
  endTime : Option String
  staff : Option String
  userId : Option String
  service : Option String
  deriving Repr, DecidableEq

/-- The `{"available": ..., "message": ...}` result dict. -/
structure AvailResult where
  available : Bool
  message : String
  deriving Repr, DecidableEq

/-- The body of `_check_final_availability` (everything inside its `try`),
with an internal error as `Except.error`.  `staffAvailable` and
`userConflict` stand for the two `google_calendar` methods, which are total
(each catches its own exceptions); their arguments are
(date, start, end, staff) and (date, start, end, user_id). -/
def checkFinalAvailabilityBody
    (staffAvailable userConflict : String → String → String → String → Bool)
    (services : List (String × ServiceRec)) (rd : ResvDataDict) :
    Except Unit AvailResult :=
  match rd.date with
  | none => .error ()
  | some dateStr =>
    let startTime := rd.startTime.getD (rd.time.getD "")
    let endTime0 := rd.endTime.getD ""
    match rd.staff with
    | none => .error ()
    | some staffName =>
      let userId := rd.userId.getD ""
      let endTimeE : Except Unit String :=
        if endTime0 = "" then
          match rd.service with
          | none => .error ()
          | some serviceName =>
            let duration :=
              ((lookupServiceByName services serviceName).bind
                (·.duration)).getD 60
            match strptimeYmdHM (dateStr ++ " " ++ startTime) with
            | none => .error ()
            | some dt =>
              .ok (formatHHMM ((dt.hour * 60 + dt.minute + duration) % 1440))
        else .ok endTime0
      match endTimeE with
      | .error e => .error e
      | .ok endTime =>
        if !staffAvailable dateStr startTime endTime staffName then
          .ok ⟨false, "👨‍💼 " ++ staffName ++ "さんの" ++ startTime ++ "~"
            ++ endTime ++ "の時間帯は既に予約が入っております。"⟩
        else if userConflict dateStr startTime endTime userId then
          .ok ⟨false, "⚠️ 同じ時間帯に他のご予約がございます。"⟩
        else .ok ⟨true, ""⟩

/-- `_check_final_availability`: the `except` branch returns
`{"available": True, "message": ""}`. -/
def checkFinalAvailability
    (staffAvailable userConflict : String → String → String → String → Bool)
    (services : List (String × ServiceRec)) (rd : ResvDataDict) : AvailResult :=
  match checkFinalAvailabilityBody staffAvailable userConflict services rd with
  | .ok r => r
  | .error _ => ⟨true, ""⟩

/-- The `pending_modification` dict. -/
structure PendingModification where
  newDate : Option String
  newTime : Option String
  newService : Option String
  newStaff : Option String
  deriving Repr, DecidableEq

/-- The body of `_check_modification_availability`.  `staffAvailableEx` and
`userConflictEx` take an extra `exclude_reservation_id`;
`serviceChangeOverlap` returns `(is_available, new_end_time,
conflict_details message)` like `check_service_change_overlap`.  All three
stand for total `google_calendar` methods. -/
def checkModificationAvailabilityBody
    (staffAvailableEx : String → String → String → String → Option String → Bool)
    (userConflictEx : String → String → String → String → Option String → Bool)
    (serviceChangeOverlap :
      String → String → String → String → Option String →
        Bool × String × Option String)
    (r : ResvDataDict) (pending : PendingModification)
    (modificationType : String) : Except Unit AvailResult :=
  if modificationType = "time" then
    match r.date with
    | none => .error ()
    | some rdate =>
      let newDate := pending.newDate.getD rdate
      let newTime := pending.newTime.getD ""
      if newTime = "" then .ok ⟨true, ""⟩
      else
        match parseTimeRange newTime with
        | (some startTime, some endTime) =>
          match r.staff, r.reservationId with
          | some staffName, some rid =>
            if !staffAvailableEx newDate startTime endTime staffName (some rid) then
              .ok ⟨false, "👨‍💼 " ++ staffName ++ "さんの" ++ startTime ++ "~"
                ++ endTime ++ "の時間帯は既に予約が入っております。"⟩
            else if userConflictEx newDate startTime endTime (r.userId.getD "")
                (some rid) then
              .ok ⟨false, "⚠️ 同じ時間帯に他のご予約がございます。"⟩
            else .ok ⟨true, ""⟩
          | _, _ => .error ()
        | _ => .ok ⟨true, ""⟩
  else if modificationType = "service" then
    let newService := pending.newService.getD ""
    if newService = "" then .ok ⟨true, ""⟩
    else
      match r.date, r.startTime, r.staff, r.reservationId with
      | some rdate, some rstart, some staffName, some rid =>
        let res := serviceChangeOverlap rdate rstart newService staffName (some rid)
        if !res.1 then
          .ok ⟨false, "⚠️ " ++ newService ++ "に変更すると時間が重複します。"
            ++ (res.2.2.getD "")⟩
        else .ok ⟨true, ""⟩
      | _, _, _, _ => .error ()
  else if modificationType = "staff" then
    let newStaff := pending.newStaff.getD ""
    if newStaff = "" then .ok ⟨true, ""⟩
    else
      match r.date, r.startTime, r.endTime, r.reservationId with
      | some rdate, some rstart, some rend, some rid =>
        if !staffAvailableEx rdate rstart rend newStaff (some rid) then
          .ok ⟨false, "👨‍💼 " ++ newStaff ++ "さんの" ++ rstart ++ "~" ++ rend
            ++ "の時間帯は既に予約が入っております。"⟩
        else .ok ⟨true, ""⟩
      | _, _, _, _ => .error ()
  else .ok ⟨true, ""⟩

/-- `_check_modification_availability`: the `except` branch returns
`{"available": True, "message": ""}`. -/
def checkModificationAvailability
    (staffAvailableEx : String → String → String → String → Option String → Bool)
    (userConflictEx : String → String → String → String → Option String → Bool)
    (serviceChangeOverlap :
      String → String → String → String → Option String →
        Bool × String × Option String)
    (r : ResvDataDict) (pending : PendingModification)
    (modificationType : String) : AvailResult :=
  match checkModificationAvailabilityBody staffAvailableEx userConflictEx
      serviceChangeOverlap r pending modificationType with
  | .ok res => res
  | .error _ => ⟨true, ""⟩

/-! ## `api/google_calendar.py` — `check_user_time_conflict`

Event timestamps arrive as RFC-3339 strings; the code parses them with
`datetime.fromisoformat(s.replace('Z', '+00:00'))` and converts to the
configured (Tokyo) zone.  The parser below accepts
`YYYY-MM-DD[T ]HH:MM[:SS][±HH:MM]` — the shape the calendar API emits — and
fails (`ValueError`) on anything else. -/

/-- `s.replace('Z', '+00:00')`. -/
def replaceZ (s : String) : List Char :=
  s.data.flatMap (fun c => if c = 'Z' then "+00:00".data else [c])

/-- Optional `:SS` seconds suffix: returns (seconds, rest). -/
def matchIsoSeconds (xs : List Char) : Option (Nat × List Char) :=
  match xs with
  | ':' :: rest =>
    (matchNDigits 2 rest).bind fun s =>
      if s.1 ≤ 59 then some (s.1, s.2) else none
  | _ => some (0, xs)

/-- Optional `±HH:MM` offset suffix: returns (offset seconds, rest). -/
def matchIsoOffset (xs : List Char) : Option (Option Int × List Char) :=
  match xs with
  | c :: rest =>
    if c = '+' ∨ c = '-' then
      (matchNDigits 2 rest).bind fun oh =>
      (matchLit ':' oh.2).bind fun r1 =>
      (matchNDigits 2 r1).bind fun om =>
      if om.1 ≤ 59 then
        let signed : Int := (3600 * oh.1 + 60 * om.1 : Nat)
        some (some (if c = '-' then -signed else signed), om.2)
      else none
    else none
  | [] => some (none, [])

/-- `datetime.fromisoformat(s.replace('Z', '+00:00'))`, returning the naive
timeline position in seconds plus the UTC offset when one is present. -/
def parseIsoDateTime (s : String) : Option (Int × Option Int) :=
  let xs := replaceZ s
  (matchNDigits 4 xs).bind fun y =>
  (matchLit '-' y.2).bind fun r1 =>
  (matchNDigits 2 r1).bind fun mo =>
  (matchLit '-' mo.2).bind fun r2 =>
  (matchNDigits 2 r2).bind fun d =>
  (match d.2 with
   | c :: rest => if c = 'T' ∨ c = ' ' then some rest else none
   | [] => none).bind fun r3 =>
  (matchNDigits 2 r3).bind fun h =>
  (matchLit ':' h.2).bind fun r4 =>
  (matchNDigits 2 r4).bind fun mi =>
  (matchIsoSeconds mi.2).bind fun sec =>
  (matchIsoOffset sec.2).bind fun off =>
  if off.2 = [] ∧ 1 ≤ mo.1 ∧ mo.1 ≤ 12 ∧ 1 ≤ d.1
      ∧ d.1 ≤ daysInMonth y.1 mo.1 ∧ 1 ≤ y.1 ∧ h.1 ≤ 23 ∧ mi.1 ≤ 59 then
    some (86400 * daysFromCivil y.1 mo.1 d.1
      + 3600 * h.1 + 60 * mi.1 + sec.1, off.1)
  else none

/-- `dt.astimezone(tokyo).replace(tzinfo=None)` in seconds: an aware value is
shifted from its own offset to +9:00; a naive value is interpreted in the
system zone (`sysOffsetSec`) first, as `astimezone` does. -/
def isoToTokyoNaiveSec (sysOffsetSec : Int) (s : String) : Option Int :=
  (parseIsoDateTime s).map fun p =>
    match p.2 with
    | some o => p.1 - o + 32400
    | none => p.1 - sysOffsetSec + 32400

/-- An event as read by `check_user_time_conflict`:
`event.get('description', '')` and `event['start'/'end'].get('dateTime', '')`
(empty string when absent). -/
structure IsoEvent where
  description : String
  startDateTime : String
  endDateTime : String
  deriving Repr, DecidableEq

/-- Python `str.split(sep)` for a non-empty separator `s0 :: stail`:
split at non-overlapping occurrences, scanned left to right.  Structural
fuel (each step consumes at least one character, so fuel `xs.length + 1`
always suffices). -/
def splitOnSeqFuel (s0 : Char) (stail : List Char) :
    Nat → List Char → List (List Char)
  | 0, xs => [xs]
  | _ + 1, [] => [[]]
  | fuel + 1, x :: xs =>
    if (s0 :: stail).isPrefixOf (x :: xs) then
      [] :: splitOnSeqFuel s0 stail fuel (xs.drop stail.length)
    else
      match splitOnSeqFuel s0 stail fuel xs with
      | ys :: rest => (x :: ys) :: rest
      | [] => [[x]]

/-- Python `s.split(sep)` on strings (the separators used are never
empty). -/
def pySplit (sep s : String) : List String :=
  match sep.data with
  | [] => [s]
  | c :: rest =>
    (splitOnSeqFuel c rest (s.data.length + 1) s.data).map String.mk

/-- `_is_user_reservation(event, user_id)`: extract the text after the first
`User ID:` marker up to the next newline, strip it, and compare. -/
def isUserReservation (description userId : String) : Bool :=
  if strContains description "User ID:" then
    match (pySplit "User ID:" description).get? 1 with
    | some tail =>
      String.mk (pyStrip ((pySplit "\n" tail).getD 0 tail)) = userId
    | none => false
  else false

/-- The calendars consulted by `check_user_time_conflict`:
`self.calendar_id` truthiness, the default calendar's events for the date,
and per `staff_data` entry its `name` (`none` = missing key) and that staff
calendar's events for the date. -/
structure ConflictEnv where
  hasDefaultCalendar : Bool
  defaultEvents : List IsoEvent
  staffCalendars : List (Option String × List IsoEvent)

/-- `all_events` as aggregated by `check_user_time_conflict` (a falsy staff
name skips that calendar). -/
def conflictAllEvents (env : ConflictEnv) : List IsoEvent :=
  (if env.hasDefaultCalendar then env.defaultEvents else [])
    ++ env.staffCalendars.flatMap (fun p =>
      match p.1 with
      | some n => if n ≠ "" then p.2 else []
      | none => [])

/-- The event loop of `check_user_time_conflict`: skip the excluded
reservation, keep only this user's events, parse and convert their times
(a parse failure is an internal error), and report the half-open overlap
`start < event_end and end > event_start`. -/
def conflictLoop (sysOffsetSec startSec endSec : Int) (userId : String)
    (excludeId : Option String) : List IsoEvent → Except Unit Bool
  | [] => .ok false
  | e :: rest =>
    let skip :=
      match excludeId with
      | some rid => strContains e.description ("予約ID: " ++ rid)
      | none => false
    if skip then conflictLoop sysOffsetSec startSec endSec userId excludeId rest
    else if isUserReservation e.description userId then
      if e.startDateTime ≠ "" ∧ e.endDateTime ≠ "" then
        match isoToTokyoNaiveSec sysOffsetSec e.startDateTime,
            isoToTokyoNaiveSec sysOffsetSec e.endDateTime with
        | some evStart, some evEnd =>
          if startSec < evEnd ∧ endSec > evStart then .ok true
          else conflictLoop sysOffsetSec startSec endSec userId excludeId rest
        | _, _ => .error ()
      else conflictLoop sysOffsetSec startSec endSec userId excludeId rest
    else conflictLoop sysOffsetSec startSec endSec userId excludeId rest

/-- The body of `check_user_time_conflict` (everything inside its `try`). -/
def checkUserTimeConflictBody (env : ConflictEnv) (sysOffsetSec : Int)
    (dateStr startTime endTime userId : String) (excludeId : Option String) :
    Except Unit Bool :=
  let allEvents := conflictAllEvents env
  match strptimeYmdHM (dateStr ++ " " ++ startTime),
      strptimeYmdHM (dateStr ++ " " ++ endTime) with
  | some sdt, some edt =>
    conflictLoop sysOffsetSec (dtMinToSec sdt) (dtMinToSec edt) userId
      excludeId allEvents
  | _, _ => .error ()

/-- `check_user_time_conflict`: the `except` branch returns `True`
("assume conflict if error occurs — safer approach"). -/
def checkUserTimeConflict (env : ConflictEnv) (sysOffsetSec : Int)
    (dateStr startTime endTime userId : String) (excludeId : Option String) :
    Bool :=
  match checkUserTimeConflictBody env sysOffsetSec dateStr startTime endTime
      userId excludeId with
  | .ok b => b
  | .error _ => true

/-! ## `api/faq_menu.py` — `send_faq_menu` -/

/-- One entry of `faq.json`. -/
structure FaqEntry where
  question : String
  answer : String
  deriving Repr, DecidableEq

/-- The exceptions `send_faq_menu` can raise before replying. -/
inductive FaqMenuError where
  /-- `FileNotFoundError("FAQ file not found: ...")`. -/
  | fileNotFound : FaqMenuError
  /-- `ValueError("FAQ list is empty")`. -/
  | emptyList : FaqMenuError
  /-- `ValueError("No FAQ columns could be created")`. -/
  | noColumns : FaqMenuError
  deriving Repr, DecidableEq

/-- A `MessageAction(label=..., text=...)`. -/
structure MsgAction where
  label : String
  text : String
  deriving Repr, DecidableEq

/-- A `CarouselColumn(text=..., actions=[...])`. -/
structure CarColumn where
  text : String
  actions : List MsgAction
  deriving Repr, DecidableEq

/-- The single `TemplateMessage(alt_text=..., template=CarouselTemplate(...))`
reply. -/
structure FaqMenuMessage where
  altText : String
  columns : List CarColumn
  deriving Repr, DecidableEq

/-- The per-question truncation: questions longer than 100 characters become
their first 97 characters plus `"..."`. -/
def truncateQuestion (q : String) : String :=
  if q.length > 100 then q.take 97 ++ "..." else q

/-- The carousel column built for the FAQ entry at 1-based index `idx`: the
column text is the (truncated) question, its one button's label and payload
are both `"FAQ{idx}"`. -/
def faqColumn (idx : Nat) (e : FaqEntry) : CarColumn :=
  ⟨truncateQuestion e.question,
    [⟨"FAQ" ++ toString idx, "FAQ" ++ toString idx⟩]⟩

/-- `send_faq_menu`, up to the reply call: `faqFile` is the parsed
`faq.json`, `none` when the file does not exist. -/
def sendFaqMenu (faqFile : Option (List FaqEntry)) :
    Except FaqMenuError FaqMenuMessage :=
  match faqFile with
  | none => .error .fileNotFound
  | some faqList =>
    if faqList.length = 0 then .error .emptyList
    else
      let truncated := faqList.take 10
      let columns := truncated.enum.map (fun p => faqColumn (p.1 + 1) p.2)
      if columns = [] then .error .noColumns
      else .ok ⟨"よくある質問一覧", columns⟩

/-! # Theorems -/

/-- C1: `_find_available_periods` walks the business period left-to-right:
an event overlapping the remaining window (`event_start <= business_end`,
`event_end >= business_start`) that starts after the current window start
emits the gap and advances the window start to the event's end; one starting
exactly at the window start only advances the window start; a
non-overlapping event is ignored; after the fold, a remainder before the
period end is emitted as a final period.  For period 09:00-12:00: the empty
event list yields exactly `[{09:00,12:00}]`, and the single event
10:00-10:30 yields exactly `[{09:00,10:00},{10:30,12:00}]`. -/
theorem c1_find_available_periods_walk :
    (∀ (bEnd bStart : Nat) (acc : List GPeriod) (e : EvtInterval),
      e.startMin ≤ bEnd → bStart ≤ e.endMin → bStart < e.startMin →
        findStep bEnd (bStart, acc) e
          = (e.endMin, acc ++ [⟨formatHHMM bStart, formatHHMM e.startMin⟩]))
    ∧ (∀ (bEnd bStart : Nat) (acc : List GPeriod) (e : EvtInterval),
      e.startMin ≤ bEnd → bStart ≤ e.endMin → e.startMin = bStart →
        findStep bEnd (bStart, acc) e = (e.endMin, acc))
    ∧ (∀ (bEnd bStart : Nat) (acc : List GPeriod) (e : EvtInterval),
      ¬ (e.startMin ≤ bEnd ∧ bStart ≤ e.endMin) →
        findStep bEnd (bStart, acc) e = (bStart, acc))
    ∧ (∀ (bp : BusinessPeriod) (events : List EvtInterval),
      findAvailablePeriods bp events
        = (let res := events.foldl (findStep (bp.endHour * 60))
            (bp.startHour * 60, [])
           if res.1 < bp.endHour * 60 then
             res.2 ++ [⟨formatHHMM res.1, formatHHMM (bp.endHour * 60)⟩]
           else res.2))
    ∧ findAvailablePeriods ⟨9, 12⟩ [] = [⟨"09:00", "12:00"⟩]
    ∧ findAvailablePeriods ⟨9, 12⟩ [⟨600, 630⟩]
        = [⟨"09:00", "10:00"⟩, ⟨"10:30", "12:00"⟩] := by
  refine ⟨?_, ?_, ?_, ?_, by decide, by decide⟩
  · intro bEnd bStart acc e h1 h2 h3
    simp [findStep, h1, h2, h3, Nat.lt_irrefl, (Nat.ne_of_lt h3).symm]
  · intro bEnd bStart acc e h1 h2 h3
    subst h3
    simp [findStep, h1, h2]
  · intro bEnd bStart acc e h
    simp [findStep, h]
  · intro bp events
    rfl

/-- C1 witness: the three step cases and the remainder, at concrete inputs
(window 09:00-12:00; events 10:00-10:30, 09:00-10:00 and 05:00-06:40). -/
theorem c1_witness :
    findStep 720 (540, []) ⟨600, 630⟩ = (630, [⟨"09:00", "10:00"⟩])
    ∧ findStep 720 (540, []) ⟨540, 600⟩ = (600, [])
    ∧ findStep 720 (540, []) ⟨300, 400⟩ = (540, []) := by
  refine ⟨?_, ?_, ?_⟩
  · exact c1_find_available_periods_walk.1 720 540 [] ⟨600, 630⟩
      (by decide) (by decide) (by decide)
  · exact c1_find_available_periods_walk.2.1 720 540 [] ⟨540, 600⟩
      (by decide) (by decide) (by decide)
  · exact c1_find_available_periods_walk.2.2.1 720 540 [] ⟨300, 400⟩
      (by decide)

/-- C9: an event that overlaps the business window but starts strictly
before the current window start leaves the window start (and the emitted
periods) unchanged; in particular, for window 09:00-12:00 and the single
event 08:30-09:30 the result is exactly `[{09:00,12:00}]`, although
09:00-09:30 is booked. -/
theorem c9_overlapping_event_before_window_ignored :
    (∀ (bEnd bStart : Nat) (acc : List GPeriod) (e : EvtInterval),
      e.startMin ≤ bEnd → bStart ≤ e.endMin → e.startMin < bStart →
        findStep bEnd (bStart, acc) e = (bStart, acc))
    ∧ findAvailablePeriods ⟨9, 12⟩ [⟨510, 570⟩] = [⟨"09:00", "12:00"⟩] := by
  refine ⟨?_, by decide⟩
  intro bEnd bStart acc e h1 h2 h3
  simp [findStep, h1, h2, Nat.lt_asymm h3, Nat.ne_of_lt h3]

/-- C9 witness: the no-op step at the concrete event 08:30-09:30 against
window start 09:00. -/
theorem c9_witness :
    findStep 720 (540, []) ⟨510, 570⟩ = (540, []) :=
  c9_overlapping_event_before_window_ignored.1 720 540 [] ⟨510, 570⟩
    (by decide) (by decide) (by decide)

/-- The `special_hours` scan only yields the hours of a matching entry when
they are non-empty (an empty-hours match `break`s instead). -/
lemma findSpecial_some_ne_nil (entries : List SpecialHoursEntry) (ds : String)
    (hs : List HoursSlot) (h : findSpecial entries ds = some hs) : hs ≠ [] := by
  induction entries with
  | nil => simp [findSpecial] at h
  | cons e rest ih =>
    by_cases hd : e.date = ds
    · by_cases hh : e.hours = [] <;> simp [findSpecial, hd, hh] at h
      exact h ▸ hh
    · exact ih (by simpa [findSpecial, hd] using h)

/-- C2: the fixed evaluation precedence of `is_closed_date` /
`get_hours_for_date`: an exact `closed_dates` match closes the date outright;
otherwise a matching `special_hours` entry with non-empty hours opens the
date with exactly those (normalized) hours; otherwise a matching
`monthly_closed` rule closes it; otherwise empty weekly hours close it;
otherwise the date is open with that weekday's (normalized) hours.
`findSpecial` is the source's first-matching-entry scan, and it only
produces non-empty hours. -/
theorem c2_business_hours_precedence (s : Settings) (d : PyDate) :
    (∀ hs, findSpecial s.specialHours (pyDateStr d) = some hs → hs ≠ [])
    ∧ (pyDateStr d ∈ s.closedDates →
        isClosedDate s d = true ∧ getHoursForDate s d = [])
    ∧ (pyDateStr d ∉ s.closedDates →
       ∀ hs, findSpecial s.specialHours (pyDateStr d) = some hs →
        isClosedDate s d = false
          ∧ getHoursForDate s d = hs.map normalizeSlot)
    ∧ (pyDateStr d ∉ s.closedDates →
       findSpecial s.specialHours (pyDateStr d) = none →
       monthlyClosedHit s (weekdayKey d) (nthWeekdayOfMonth d) = true →
        isClosedDate s d = true ∧ getHoursForDate s d = [])
    ∧ (pyDateStr d ∉ s.closedDates →
       findSpecial s.specialHours (pyDateStr d) = none →
       monthlyClosedHit s (weekdayKey d) (nthWeekdayOfMonth d) = false →
       lookupBusinessHours s (weekdayKey d) = [] →
        isClosedDate s d = true ∧ getHoursForDate s d = [])
    ∧ (pyDateStr d ∉ s.closedDates →
       findSpecial s.specialHours (pyDateStr d) = none →
       monthlyClosedHit s (weekdayKey d) (nthWeekdayOfMonth d) = false →
       lookupBusinessHours s (weekdayKey d) ≠ [] →
        isClosedDate s d = false
          ∧ getHoursForDate s d
              = (lookupBusinessHours s (weekdayKey d)).map normalizeSlot) := by
  refine ⟨fun hs h => findSpecial_some_ne_nil _ _ _ h, ?_, ?_, ?_, ?_, ?_⟩
  · intro h
    constructor <;> simp [isClosedDate, getHoursForDate, h]
  · intro h hs hfs
    constructor <;> simp [isClosedDate, getHoursForDate, h, hfs]
  · intro h hfs hmc
    constructor <;> simp [isClosedDate, getHoursForDate, h, hfs, hmc]
  · intro h hfs hmc hbh
    constructor <;> simp [isClosedDate, getHoursForDate, h, hfs, hmc, hbh]
  · intro h hfs hmc hbh
    constructor <;> simp [isClosedDate, getHoursForDate, h, hfs, hmc, hbh]

/-- C2 witness: a settings document where 2025-01-06 is in `closed_dates`
while a `special_hours` entry would open it, and 2025-01-07 has a
`special_hours` override on an otherwise empty weekday (`tue`). -/
theorem c2_witness :
    isClosedDate ⟨[("mon", [⟨"10:00", "20:00"⟩]), ("tue", [])],
        [], ["2025-01-06"],
        [⟨"2025-01-06", [⟨"09:00", "12:00"⟩]⟩,
         ⟨"2025-01-07", [⟨"11:00", "15:00"⟩]⟩]⟩ ⟨2025, 1, 6⟩ = true
    ∧ getHoursForDate ⟨[("mon", [⟨"10:00", "20:00"⟩]), ("tue", [])],
        [], ["2025-01-06"],
        [⟨"2025-01-06", [⟨"09:00", "12:00"⟩]⟩,
         ⟨"2025-01-07", [⟨"11:00", "15:00"⟩]⟩]⟩ ⟨2025, 1, 6⟩ = []
    ∧ isClosedDate ⟨[("mon", [⟨"10:00", "20:00"⟩]), ("tue", [])],
        [], ["2025-01-06"],
        [⟨"2025-01-06", [⟨"09:00", "12:00"⟩]⟩,
         ⟨"2025-01-07", [⟨"11:00", "15:00"⟩]⟩]⟩ ⟨2025, 1, 7⟩ = false
    ∧ getHoursForDate ⟨[("mon", [⟨"10:00", "20:00"⟩]), ("tue", [])],
        [], ["2025-01-06"],
        [⟨"2025-01-06", [⟨"09:00", "12:00"⟩]⟩,
         ⟨"2025-01-07", [⟨"11:00", "15:00"⟩]⟩]⟩ ⟨2025, 1, 7⟩
        = [⟨"11:00", "15:00"⟩] := by
  refine ⟨?_, ?_, ?_, ?_⟩
  · exact ((c2_business_hours_precedence _ _).2.1 (by decide)).1
  · exact ((c2_business_hours_precedence _ _).2.1 (by decide)).2
  · exact ((c2_business_hours_precedence _ _).2.2.1 (by decide)
      [⟨"11:00", "15:00"⟩] (by decide)).1
  · exact ((c2_business_hours_precedence _ _).2.2.1 (by decide)
      [⟨"11:00", "15:00"⟩] (by decide)).2

/-- The fuelled nth-weekday loop computes `n + (day - 1) / 7` whenever the
fuel covers the iteration count. -/
lemma nthWeekdayLoopFuel_eq (fuel : Nat) : ∀ day n : Nat, 1 ≤ day →
    day ≤ 7 * fuel + 7 → nthWeekdayLoopFuel fuel day n = n + (day - 1) / 7 := by
  induction fuel with
  | zero =>
    intro day n h1 h7
    have hz : (day - 1) / 7 = 0 := Nat.div_eq_of_lt (by omega)
    show n = n + (day - 1) / 7
    omega
  | succ fuel ih =>
    intro day n h1 h7
    rw [nthWeekdayLoopFuel]
    split
    · next hgt =>
      rw [ih (day - 7) (n + 1) (by omega) (by omega)]
      have hstep : (day - 1) / 7 = (day - 1 - 7) / 7 + 1 :=
        Nat.div_eq_sub_div (by norm_num) (by omega)
      omega
    · next hle =>
      have hz : (day - 1) / 7 = 0 := Nat.div_eq_of_lt (by omega)
      omega

/-- The nth-weekday loop computes `n + (day - 1) / 7`. -/
lemma nthWeekdayLoop_eq (day : Nat) : ∀ n : Nat, 1 ≤ day →
    nthWeekdayLoop day n = n + (day - 1) / 7 := fun n h1 =>
  nthWeekdayLoopFuel_eq day day n h1 (by omega)

/-- C7: `_nth_weekday_of_month` returns `1 + floor((day - 1) / 7)`; it
returns 2 on a second Wednesday (weekday `wed`, day 8-14); and with the
`monthly_closed` rule `{weekday: "wed", weeks: [2]}` (and no closed dates or
special hours) such a date is closed and `get_hours_for_date` is empty. -/
theorem c7_nth_weekday_rule (d : PyDate) :
    (1 ≤ d.day → nthWeekdayOfMonth d = 1 + (d.day - 1) / 7)
    ∧ (pyWeekday d = 2 → 8 ≤ d.day → d.day ≤ 14 → nthWeekdayOfMonth d = 2)
    ∧ (pyWeekday d = 2 → 8 ≤ d.day → d.day ≤ 14 →
        isClosedDate ⟨[("wed", [⟨"10:00", "20:00"⟩])], [⟨"wed", [2]⟩], [], []⟩
          d = true
        ∧ getHoursForDate ⟨[("wed", [⟨"10:00", "20:00"⟩])], [⟨"wed", [2]⟩],
            [], []⟩ d = []) := by
  have hloop : 1 ≤ d.day → nthWeekdayOfMonth d = 1 + (d.day - 1) / 7 := by
    intro h
    rw [nthWeekdayOfMonth, nthWeekdayLoop_eq d.day 1 h, Nat.add_comm]
  have hsecond : 8 ≤ d.day → d.day ≤ 14 → nthWeekdayOfMonth d = 2 := by
    intro h8 h14
    rw [hloop (by omega)]
    have : (d.day - 1) / 7 = 1 := by
      have h1 : 7 ≤ d.day - 1 := by omega
      have h2 : d.day - 1 < 14 := by omega
      omega
    omega
  refine ⟨hloop, fun _ h8 h14 => hsecond h8 h14, fun hw h8 h14 => ?_⟩
  have hwk : weekdayKey d = "wed" := by rw [weekdayKey, hw]; rfl
  have hnth : nthWeekdayOfMonth d = 2 := hsecond h8 h14
  constructor
  · simp [isClosedDate, findSpecial, hwk, hnth, monthlyClosedHit]
  · simp [getHoursForDate, findSpecial, hwk, hnth, monthlyClosedHit]

/-- C7 witness: 2025-01-08 is the second Wednesday of January 2025. -/
theorem c7_witness :
    nthWeekdayOfMonth ⟨2025, 1, 8⟩ = 2
    ∧ isClosedDate ⟨[("wed", [⟨"10:00", "20:00"⟩])], [⟨"wed", [2]⟩], [], []⟩
        ⟨2025, 1, 8⟩ = true
    ∧ getHoursForDate ⟨[("wed", [⟨"10:00", "20:00"⟩])], [⟨"wed", [2]⟩], [], []⟩
        ⟨2025, 1, 8⟩ = [] := by
  refine ⟨?_, ?_, ?_⟩
  · exact (c7_nth_weekday_rule ⟨2025, 1, 8⟩).2.1 (by decide) (by decide)
      (by decide)
  · exact ((c7_nth_weekday_rule ⟨2025, 1, 8⟩).2.2 (by decide) (by decide)
      (by decide)).1
  · exact ((c7_nth_weekday_rule ⟨2025, 1, 8⟩).2.2 (by decide) (by decide)
      (by decide)).2

/-- The staff predicate of `_filter_events_by_staff`. -/
def staffPred (staffName : String) (e : CalEvent) : Bool :=
  match parseSummary e.summary with
  | some (_, _, st) => st = staffName
  | none => false

/-- The `予約ID:` marker test used to set aside the reservation being
modified: `true` means the event does NOT carry the excluded id. -/
def noMarkPred (rid : String) (e : CalEvent) : Bool :=
  !strContains e.description ("予約ID: " ++ rid)

/-- The "other events" set of `get_available_slots_for_modification`:
staff filter first, then removal of the reservation being modified. -/
def othersOf (events : List CalEvent) (rid : String)
    (staffName : Option String) : List CalEvent :=
  let allEvents :=
    match staffName with
    | some s => filterEventsByStaff events s
    | none => events
  allEvents.filter (fun e => !strContains e.description ("予約ID: " ++ rid))

/-- The `if not events` guard of `_filter_events_by_staff` is redundant:
the function is a plain filter. -/
lemma filterEventsByStaff_eq (events : List CalEvent) (s : String) :
    filterEventsByStaff events s = events.filter (staffPred s) := by
  cases events <;> rfl

/-- Filtering twice by `p` around a middle filter changes nothing. -/
lemma filter_sandwich {α : Type} (p q : α → Bool) (l : List α) :
    ((l.filter p).filter q).filter p = (l.filter q).filter p := by
  simp only [List.filter_filter]
  apply List.filter_congr
  intro a _
  cases p a <;> cases q a <;> rfl

/-- Filtering twice by `p` changes nothing. -/
lemma filter_twice {α : Type} (p : α → Bool) (l : List α) :
    (l.filter p).filter p = l.filter p := by
  induction l with
  | nil => rfl
  | cons e rest ih =>
    by_cases hp : p e <;> simp [List.filter_cons, hp, ih]

/-- Removing the excluded reservation's events from the input does not
change the "other events" set. -/
lemma othersOf_filter (events : List CalEvent) (rid : String)
    (staffName : Option String) :
    othersOf (events.filter (noMarkPred rid)) rid staffName
      = othersOf events rid staffName := by
  cases staffName with
  | none =>
    exact filter_twice (noMarkPred rid) events
  | some s =>
    simp only [othersOf, filterEventsByStaff_eq]
    exact filter_sandwich (noMarkPred rid) (staffPred s) events

/-- Some period of `acc` (with minute bounds `a`, `b`) covers `[lo, hi]`. -/
def coversPeriod (acc : List GPeriod) (lo hi : Nat) : Prop :=
  ∃ a b, a ≤ lo ∧ hi ≤ b ∧ (⟨formatHHMM a, formatHHMM b⟩ : GPeriod) ∈ acc

/-- Appending periods preserves coverage. -/
lemma coversPeriod_append_left {acc : List GPeriod} {lo hi : Nat}
    (h : coversPeriod acc lo hi) (more : List GPeriod) :
    coversPeriod (acc ++ more) lo hi := by
  rcases h with ⟨a, b, ha, hb, hm⟩
  exact ⟨a, b, ha, hb, List.mem_append_left _ hm⟩

/-- Step equation: an overlapping event starting after the window start
emits the gap and advances the window start to the event's end. -/
lemma findStep_gap (be bs : Nat) (acc : List GPeriod) (e : EvtInterval)
    (h1 : e.startMin ≤ be) (h2 : bs ≤ e.endMin) (h3 : bs < e.startMin) :
    findStep be (bs, acc) e
      = (e.endMin, acc ++ [⟨formatHHMM bs, formatHHMM e.startMin⟩]) := by
  simp [findStep, h1, h2, h3, Nat.lt_irrefl, (Nat.ne_of_lt h3).symm]

/-- Step equation: an overlapping event starting exactly at the window start
only advances the window start. -/
lemma findStep_eqStart (be bs : Nat) (acc : List GPeriod) (e : EvtInterval)
    (h1 : e.startMin ≤ be) (h2 : bs ≤ e.endMin) (h3 : e.startMin = bs) :
    findStep be (bs, acc) e = (e.endMin, acc) := by
  subst h3
  simp [findStep, h1, h2]

/-- Step equation: an overlapping event starting strictly before the window
start is a no-op. -/
lemma findStep_before (be bs : Nat) (acc : List GPeriod) (e : EvtInterval)
    (h1 : e.startMin ≤ be) (h2 : bs ≤ e.endMin) (h3 : e.startMin < bs) :
    findStep be (bs, acc) e = (bs, acc) := by
  simp [findStep, h1, h2, Nat.lt_asymm h3, Nat.ne_of_lt h3]

/-- Step equation: a non-overlapping event is a no-op. -/
lemma findStep_skip (be bs : Nat) (acc : List GPeriod) (e : EvtInterval)
    (h : ¬ (e.startMin ≤ be ∧ bs ≤ e.endMin)) :
    findStep be (bs, acc) e = (bs, acc) := by
  simp [findStep, h]

/-- Invariant of the event loop of `_find_available_periods`: if no event of
`evs` overlaps the open interval `(lo, hi)`, then after the fold either some
emitted period already covers `[lo, hi]` or the advanced window start is
still at or before `lo`.  (Every region the loop skips lies inside the event
that caused the skip, and the window start only ever moves to that event's
end.) -/
lemma findStep_fold_cover (be lo hi : Nat) (hlh : lo < hi) :
    ∀ (evs : List EvtInterval) (bs : Nat) (acc : List GPeriod),
      (∀ e ∈ evs, ¬ (e.startMin < hi ∧ lo < e.endMin)) →
      (coversPeriod acc lo hi ∨ bs ≤ lo) →
      (coversPeriod (evs.foldl (findStep be) (bs, acc)).2 lo hi
        ∨ (evs.foldl (findStep be) (bs, acc)).1 ≤ lo) := by
  intro evs
  induction evs with
  | nil =>
    intro bs acc _ h
    simpa using h
  | cons e rest ih =>
    intro bs acc hev h
    have hevrest : ∀ x ∈ rest, ¬ (x.startMin < hi ∧ lo < x.endMin) :=
      fun x hx => hev x (List.mem_cons_of_mem _ hx)
    have he := hev e (List.mem_cons_self _ _)
    have he' : hi ≤ e.startMin ∨ e.endMin ≤ lo := by
      by_cases hs : e.startMin < hi
      · exact Or.inr (not_lt.mp (fun h2 => he ⟨hs, h2⟩))
      · exact Or.inl (not_lt.mp hs)
    rw [List.foldl_cons]
    by_cases hov : e.startMin ≤ be ∧ bs ≤ e.endMin
    · by_cases hlt : bs < e.startMin
      · rw [findStep_gap be bs acc e hov.1 hov.2 hlt]
        apply ih _ _ hevrest
        rcases h with hcov | hbs
        · exact Or.inl (coversPeriod_append_left hcov _)
        · rcases he' with hstart | hend
          · exact Or.inl ⟨bs, e.startMin, hbs, hstart,
              List.mem_append_right _ (List.mem_singleton.mpr rfl)⟩
          · exact Or.inr hend
      · by_cases heq : e.startMin = bs
        · rw [findStep_eqStart be bs acc e hov.1 hov.2 heq]
          apply ih _ _ hevrest
          rcases h with hcov | hbs
          · exact Or.inl hcov
          · rcases he' with hstart | hend
            · exact absurd hstart (by omega)
            · exact Or.inr hend
        · rw [findStep_before be bs acc e hov.1 hov.2 (by omega)]
          exact ih _ _ hevrest h
    · rw [findStep_skip be bs acc e hov]
      exact ih _ _ hevrest h

/-- Coverage for `_find_available_periods`: a subinterval of the business
period that no event overlaps is covered by a returned period. -/
lemma findAvailablePeriods_cover (bp : BusinessPeriod)
    (evs : List EvtInterval) (lo hi : Nat)
    (h1 : bp.startHour * 60 ≤ lo) (h2 : lo < hi) (h3 : hi ≤ bp.endHour * 60)
    (hev : ∀ e ∈ evs, ¬ (e.startMin < hi ∧ lo < e.endMin)) :
    coversPeriod (findAvailablePeriods bp evs) lo hi := by
  have hmain := findStep_fold_cover (bp.endHour * 60) lo hi h2 evs
    (bp.startHour * 60) [] hev (Or.inr h1)
  simp only [findAvailablePeriods]
  rcases hmain with hcov | hbs
  · split_ifs with hfin
    · exact coversPeriod_append_left hcov _
    · exact hcov
  · have hfin : (evs.foldl (findStep (bp.endHour * 60))
        (bp.startHour * 60, [])).1 < bp.endHour * 60 := by omega
    rw [if_pos hfin]
    exact ⟨_, bp.endHour * 60, hbs, h3,
      List.mem_append_right _ (List.mem_singleton.mpr rfl)⟩

/-- Insertion produces no new elements. -/
lemma mem_insertByStart {x e : CalEvent} :
    ∀ {l : List CalEvent}, x ∈ insertByStart e l → x = e ∨ x ∈ l := by
  intro l
  induction l with
  | nil =>
    intro h
    simpa [insertByStart] using h
  | cons y ys ih =>
    intro h
    rw [insertByStart] at h
    split_ifs at h
    · simpa [List.mem_cons] using h
    · rcases List.mem_cons.mp h with h1 | h2
      · exact Or.inr (List.mem_cons.mpr (Or.inl h1))
      · rcases ih h2 with h3 | h4
        · exact Or.inl h3
        · exact Or.inr (List.mem_cons.mpr (Or.inr h4))

/-- The stable sort produces no new elements. -/
lemma mem_sortEventsByStart {x : CalEvent} :
    ∀ {l : List CalEvent}, x ∈ sortEventsByStart l → x ∈ l := by
  intro l
  induction l with
  | nil =>
    intro h
    exact absurd h (by simp [sortEventsByStart])
  | cons y ys ih =>
    intro h
    rcases mem_insertByStart (l := sortEventsByStart ys) h with h1 | h2
    · exact h1 ▸ List.mem_cons_self _ _
    · exact List.mem_cons_of_mem _ (ih h2)

/-- Python's date comparison is reflexive. -/
lemma dateLe_refl (d : PyDate) : dateLe d d = true := by
  simp [dateLe]

/-- The date loop over a one-day range visits exactly that date. -/
lemma dateRange_self (d : PyDate) : dateRange d d = [d] := by
  simp [dateRange, dateRangeAux, dateLe_refl]

/-- `_generate_all_slots` over a one-day range is the per-date body. -/
lemma generateAllSlots_self (d : PyDate) (events : List CalEvent) :
    generateAllSlots d d events = generateSlotsForDate d events := by
  simp [generateAllSlots, dateRange_self]

/-- Keep-current-slot coverage for `get_available_slots_for_modification`:
on a non-Sunday date, any interval lying inside one of the two fixed
business periods that no event of the "other events" set overlaps is covered
by a returned slot. -/
lemma modificationSlots_cover (d : PyDate) (events : List CalEvent)
    (rid : String) (staffName : Option String) (bp : BusinessPeriod)
    (lo hi : Nat) (hwd : pyWeekday d ≠ 6) (hbp : bp ∈ businessPeriodsFixed)
    (h1 : bp.startHour * 60 ≤ lo) (h2 : lo < hi) (h3 : hi ≤ bp.endHour * 60)
    (hev : ∀ e ∈ othersOf events rid staffName, e.dateStr = pyDateStr d →
      ¬ (e.startMin < hi ∧ lo < e.endMin)) :
    ∃ a b, a ≤ lo ∧ hi ≤ b ∧
      (⟨pyDateStr d, formatHHMM a, formatHHMM b, true⟩ : SlotRec)
        ∈ getAvailableSlotsForModification true d events (some rid) staffName := by
  have hrew : getAvailableSlotsForModification true d events (some rid) staffName
      = generateSlotsForDate d (othersOf events rid staffName) := by
    rw [show getAvailableSlotsForModification true d events (some rid) staffName
        = generateAllSlots d d (othersOf events rid staffName) from rfl,
      generateAllSlots_self]
  rw [hrew]
  set others := othersOf events rid staffName with hothers
  have hev' : ∀ ev ∈ (sortEventsByStart
      (others.filter (fun e => e.dateStr = pyDateStr d))).map
        (fun e => (⟨e.startMin, e.endMin⟩ : EvtInterval)),
      ¬ (ev.startMin < hi ∧ lo < ev.endMin) := by
    intro ev hm
    rcases List.mem_map.mp hm with ⟨e, hmem, rfl⟩
    have hfil := mem_sortEventsByStart hmem
    rcases List.mem_filter.mp hfil with ⟨hein, hdate⟩
    exact hev e hein (by simpa using hdate)
  have hper := findAvailablePeriods_cover bp _ lo hi h1 h2 h3 hev'
  rcases hper with ⟨a, b, ha, hb, hmem⟩
  refine ⟨a, b, ha, hb, ?_⟩
  rw [generateSlotsForDate, if_pos hwd]
  exact List.mem_flatMap.mpr ⟨bp, hbp,
    List.mem_map.mpr ⟨⟨formatHHMM a, formatHHMM b⟩, hmem, rfl⟩⟩

/-- Minutes since midnight of an `"HH:MM"` string (property-side helper). -/
def hhmmToMin (s : String) : Nat :=
  match s.data with
  | [a, b, ':', c, e] =>
    (digitVal a * 10 + digitVal b) * 60 + (digitVal c * 10 + digitVal e)
  | _ => 0

/-- Does some returned slot cover the interval `[lo, hi)` (minutes)? -/
def slotsCover (slots : List SlotRec) (lo hi : Nat) : Bool :=
  slots.any (fun sl => hhmmToMin sl.time ≤ lo && hi ≤ hhmmToMin sl.endTime)

/-- The reservation being modified in the C5 scenarios: 13:00-14:00 with 田中
on Monday 2025-01-06. -/
def c5OwnEvent : CalEvent :=
  ⟨"2025-01-06", 780, 840, "[予約] カット - 山田太郎 (田中)",
    "予約ID: RES-20250106-0001\nUser ID: U001"⟩

/-- Another client's event occupying the same 13:00-14:00 slot with the
same staff member. -/
def c5OtherEvent : CalEvent :=
  ⟨"2025-01-06", 780, 840, "[予約] カラー - 佐藤花子 (田中)",
    "予約ID: RES-20250106-0002\nUser ID: U002"⟩

/-- C5 (amended): `get_available_slots_for_modification` partitions the
(staff-filtered) events by the `予約ID: {id}` marker and computes periods
from the other events only — removing the excluded reservation's events from
the input changes nothing — so the slot held by the reservation being
modified is shown whenever the date is not a Sunday, the slot lies inside
one of the two fixed business periods (09:00-12:00 / 13:00-18:00), and no
OTHER event on that date overlaps it; in particular, with the 13:00-14:00
reservation as the only event, the returned periods cover 13:00-14:00. -/
theorem c5_modification_uses_only_other_events :
    (∀ (d : PyDate) (events : List CalEvent) (rid : String)
      (staffName : Option String),
      getAvailableSlotsForModification true d events (some rid) staffName
        = generateAllSlots d d (othersOf events rid staffName))
    ∧ (∀ (d : PyDate) (events : List CalEvent) (rid : String)
      (staffName : Option String),
      getAvailableSlotsForModification true d
          (events.filter (noMarkPred rid)) (some rid) staffName
        = getAvailableSlotsForModification true d events (some rid) staffName)
    ∧ (∀ (d : PyDate) (events : List CalEvent) (rid : String)
      (staffName : Option String) (bp : BusinessPeriod) (lo hi : Nat),
      pyWeekday d ≠ 6 → bp ∈ businessPeriodsFixed →
      bp.startHour * 60 ≤ lo → lo < hi → hi ≤ bp.endHour * 60 →
      (∀ e ∈ othersOf events rid staffName, e.dateStr = pyDateStr d →
        ¬ (e.startMin < hi ∧ lo < e.endMin)) →
      ∃ a b, a ≤ lo ∧ hi ≤ b ∧
        (⟨pyDateStr d, formatHHMM a, formatHHMM b, true⟩ : SlotRec)
          ∈ getAvailableSlotsForModification true d events (some rid) staffName)
    ∧ slotsCover
        (getAvailableSlotsForModification true ⟨2025, 1, 6⟩ [c5OwnEvent]
          (some "RES-20250106-0001") (some "田中")) 780 840 = true := by
  refine ⟨fun d events rid staffName => rfl, ?_,
    fun d events rid staffName bp lo hi hwd hbp h1 h2 h3 hev =>
      modificationSlots_cover d events rid staffName bp lo hi hwd hbp h1 h2 h3
        hev, by decide⟩
  intro d events rid staffName
  show generateAllSlots d d (othersOf (events.filter (noMarkPred rid)) rid staffName)
    = generateAllSlots d d (othersOf events rid staffName)
  rw [othersOf_filter]

/-- C5 witness: the keep-current-slot coverage applied at the spec's
concrete scenario — the 13:00-14:00 reservation of 田中 on Monday 2025-01-06
as the only event on the date — yields a returned slot covering
13:00-14:00. -/
theorem c5_witness :
    ∃ a b, a ≤ 780 ∧ 840 ≤ b ∧
      (⟨"2025-01-06", formatHHMM a, formatHHMM b, true⟩ : SlotRec)
        ∈ getAvailableSlotsForModification true ⟨2025, 1, 6⟩ [c5OwnEvent]
            (some "RES-20250106-0001") (some "田中") :=
  c5_modification_uses_only_other_events.2.2.1 ⟨2025, 1, 6⟩ [c5OwnEvent]
    "RES-20250106-0001" (some "田中") ⟨13, 18⟩ 780 840 (by decide) (by decide)
    (by decide) (by decide) (by decide) (by decide)

/-- C5 counterexample: when another client's event occupies the same
13:00-14:00 slot, the slot of the reservation being modified is NOT included
in the returned periods — the claim's "always included" fails. -/
theorem c5_counterexample :
    getAvailableSlotsForModification true ⟨2025, 1, 6⟩ [c5OwnEvent, c5OtherEvent]
        (some "RES-20250106-0001") (some "田中")
      = [⟨"2025-01-06", "09:00", "12:00", true⟩,
         ⟨"2025-01-06", "14:00", "18:00", true⟩]
    ∧ slotsCover
        (getAvailableSlotsForModification true ⟨2025, 1, 6⟩
          [c5OwnEvent, c5OtherEvent] (some "RES-20250106-0001") (some "田中"))
        780 840 = false := by
  constructor <;> decide

/-- C8 (amended): `send_faq_menu` fails with `FileNotFoundError` when the
FAQ file is missing and with `ValueError` when the list is empty; otherwise
it builds one interactive message with one carousel column per question from
the first 10 entries — the column text is the (truncated) question, but the
button's label and payload are both the positional id `"FAQ{n}"` (n
1-based), not the question text nor `"FAQ:" + question`. -/
theorem c8_faq_menu_structure :
    sendFaqMenu none = .error .fileNotFound
    ∧ sendFaqMenu (some []) = .error .emptyList
    ∧ (∀ l : List FaqEntry,
      sendFaqMenu (some l)
        = if l.length = 0 then .error .emptyList
          else .ok ⟨"よくある質問一覧",
            (l.take 10).enum.map (fun p => faqColumn (p.1 + 1) p.2)⟩)
    ∧ (∀ l : List FaqEntry,
      ((l.take 10).enum.map (fun p => faqColumn (p.1 + 1) p.2)).length ≤ 10)
    ∧ (∀ idx e, (faqColumn idx e).actions
        = [⟨"FAQ" ++ toString idx, "FAQ" ++ toString idx⟩]) := by
  refine ⟨rfl, rfl, ?_, ?_, fun idx e => rfl⟩
  · intro l
    by_cases h : l.length = 0
    · have hl : l = [] := List.length_eq_zero.mp h
      subst hl
      rfl
    · have hcols : ((l.take 10).enum.map (fun p => faqColumn (p.1 + 1) p.2)) ≠ [] := by
        intro hc
        have hlen := congrArg List.length hc
        simp only [List.length_map, List.enum_length, List.length_take,
          List.length_nil] at hlen
        omega
      simp [sendFaqMenu, h, hcols]
  · intro l
    simp only [List.length_map, List.enum_length, List.length_take]
    omega

/-- C8 counterexample: for the one-question file `営業時間は？`, the menu's
single button has label and payload `"FAQ1"` — the label is not the question
text and the payload is not `"FAQ:" + question`. -/
theorem c8_counterexample :
    sendFaqMenu (some [⟨"営業時間は？", "10時から20時です。"⟩])
      = .ok ⟨"よくある質問一覧", [⟨"営業時間は？", [⟨"FAQ1", "FAQ1"⟩]⟩]⟩
    ∧ ("FAQ1" : String) ≠ "営業時間は？"
    ∧ ("FAQ1" : String) ≠ "FAQ:営業時間は？" := by
  refine ⟨rfl, by decide, by decide⟩

/-- Difference between a request and `now` that fall on the same civil date:
the day part cancels. -/
lemma dtDiffSameDay (y m d h1 mi1 h2 mi2 : Nat) (s2 : ℚ) :
    ((dtMinToSec ⟨y, m, d, h1, mi1⟩ : Int) : ℚ) - nowToSecQ ⟨y, m, d, h2, mi2, s2⟩
      = (3600 * (h1 : ℚ) + 60 * (mi1 : ℚ))
        - (3600 * (h2 : ℚ) + 60 * (mi2 : ℚ)) - s2 := by
  simp only [dtMinToSec, nowToSecQ]
  push_cast
  ring

/-- Exact arithmetic gives a 1-minute computed wait at the 1h59m boundary. -/
lemma advanceNeededMinutes_7140 : advanceNeededMinutes ((7140 : ℚ) / 3600) = 1 := by
  have h : ((2 : ℚ) - 7140 / 3600) * 60 = 1 := by norm_num
  rw [advanceNeededMinutes, h]
  rfl

/-- The acceptance test of the advance-booking check, stated on the
difference in seconds: `diff / 3600 < 1.99` iff `diff < 7164`. -/
lemma advanceCond_iff (diff : ℚ) : diff / 3600 < 199 / 100 ↔ diff < 7164 := by
  rw [div_lt_iff₀ (by norm_num : (0 : ℚ) < 3600)]
  norm_num

/-- C3 (amended): with the requested datetime parsed, the advance-booking
check accepts iff the start is at least 1.99 hours (7164 seconds) ahead of
`now`; at exactly 2 hours (7200 s) it accepts; at 1 hour 59 minutes
(7140 s) it rejects with a please-wait message whose stated wait time is
1 minute (exact arithmetic; the running program's float rounding can turn
the computed minutes into 0, displayed as the generic `数分` fallback —
under neither arithmetic is a wait of less than 1 minute stated). -/
theorem c3_advance_booking_boundary :
    ∀ (dateStr startTime : String) (now : PyNow) (req : PyDateTimeMin),
      strptimeYmdHM (dateStr ++ " " ++ startTime) = some req →
      ((checkAdvanceBookingTime dateStr startTime now).1 = true
        ↔ 7164 ≤ ((dtMinToSec req : Int) : ℚ) - nowToSecQ now)
      ∧ (((dtMinToSec req : Int) : ℚ) - nowToSecQ now = 7200 →
          checkAdvanceBookingTime dateStr startTime now = (true, none))
      ∧ (((dtMinToSec req : Int) : ℚ) - nowToSecQ now = 7140 →
          checkAdvanceBookingTime dateStr startTime now
            = (false, some (advanceRejectMessage dateStr startTime now 1))
          ∧ advanceTimeMessage 1 = "1分") := by
  intro dateStr startTime now req hreq
  refine ⟨?_, ?_, ?_⟩
  · simp only [checkAdvanceBookingTime, hreq]
    split_ifs with h
    · have hlt := (advanceCond_iff _).mp h
      simp [not_le.mpr hlt]
    · have hge := not_lt.mp (fun hh => h ((advanceCond_iff _).mpr hh))
      simp [hge]
  · intro hd
    simp only [checkAdvanceBookingTime, hreq, hd]
    rw [if_neg (by rw [advanceCond_iff]; norm_num)]
  · intro hd
    constructor
    · simp only [checkAdvanceBookingTime, hreq, hd]
      rw [if_pos (by rw [advanceCond_iff]; norm_num), advanceNeededMinutes_7140]
    · rfl

/-- C3 witness: request 2025-06-10 14:00; at now = 12:00:00 (7200 s ahead)
the check accepts, at now = 12:01:00 (7140 s ahead) it rejects. -/
theorem c3_witness :
    checkAdvanceBookingTime "2025-06-10" "14:00" ⟨2025, 6, 10, 12, 0, 0⟩
      = (true, none)
    ∧ checkAdvanceBookingTime "2025-06-10" "14:00" ⟨2025, 6, 10, 12, 1, 0⟩
      = (false, some (advanceRejectMessage "2025-06-10" "14:00"
          ⟨2025, 6, 10, 12, 1, 0⟩ 1)) := by
  constructor
  · exact (c3_advance_booking_boundary "2025-06-10" "14:00"
      ⟨2025, 6, 10, 12, 0, 0⟩ ⟨2025, 6, 10, 14, 0⟩ (by decide)).2.1
      (by rw [dtDiffSameDay]; norm_num)
  · exact ((c3_advance_booking_boundary "2025-06-10" "14:00"
      ⟨2025, 6, 10, 12, 1, 0⟩ ⟨2025, 6, 10, 14, 0⟩ (by decide)).2.2
      (by rw [dtDiffSameDay]; norm_num)).1

/-- C3 counterexample: at 1 hour 59 minutes the request is rejected, but the
computed wait is 1 minute (message `あと1分お待ちください`), not less than
1 minute as the claim states. -/
theorem c3_counterexample :
    (checkAdvanceBookingTime "2025-06-10" "14:00" ⟨2025, 6, 10, 12, 1, 0⟩).1
      = false
    ∧ advanceNeededMinutes ((7140 : ℚ) / 3600) = 1
    ∧ ¬ (advanceNeededMinutes ((7140 : ℚ) / 3600) < 1)
    ∧ advanceTimeMessage (advanceNeededMinutes ((7140 : ℚ) / 3600)) = "1分" := by
  have hreq : strptimeYmdHM ("2025-06-10" ++ " " ++ "14:00")
      = some ⟨2025, 6, 10, 14, 0⟩ := by decide
  have hd : ((dtMinToSec ⟨2025, 6, 10, 14, 0⟩ : Int) : ℚ)
      - nowToSecQ ⟨2025, 6, 10, 12, 1, 0⟩ = 7140 := by
    rw [dtDiffSameDay]; norm_num
  refine ⟨?_, advanceNeededMinutes_7140, ?_, ?_⟩
  · simp only [checkAdvanceBookingTime, hreq, hd]
    rw [if_pos (by rw [advanceCond_iff]; norm_num)]
  · rw [advanceNeededMinutes_7140]
    norm_num
  · rw [advanceNeededMinutes_7140]
    rfl

/-- Unfolding of the lockout gate when the reservation's datetime parses. -/
lemma lockoutDiffSec_eq (r : ReservationRec) (now : PyNow)
    (rdt : PyDateTimeMin)
    (h : strptimeYmdHM (r.date ++ " " ++ r.startTime) = some rdt) :
    lockoutDiffSec r now
      = some (((dtMinToSec rdt : Int) : ℚ) - nowToSecQ now) := by
  simp [lockoutDiffSec, h]

/-- C4: both the cancellation and the modification confirmation refuse the
operation exactly when the reservation's start is at most 7200 seconds away
(`time_diff.total_seconds() <= 7200`) — so 7200 s is refused and 7201 s is
admitted — and on refusal the conversation-state map is returned
unchanged. -/
theorem c4_lockout_boundary :
    (∀ (σ : Type) (userStates : List (String × σ)) (userId : String)
      (r : ReservationRec) (now : PyNow) (sheetsOk : Bool) (diff : ℚ),
      lockoutDiffSec r now = some diff →
      (diff ≤ 7200 →
        executeReservationCancellation userStates userId r now sheetsOk
          = (userStates, cancellationLockoutMessage r now diff))
      ∧ (7200 < diff →
        executeReservationCancellation userStates userId r now sheetsOk
          = executeReservationCancellationCommit userStates userId r sheetsOk))
    ∧ (∀ (σ : Type) (yesKeywords noKeywords cancelKeywords : List String)
      (message : String) (userStates : List (String × σ)) (userId : String)
      (r : ReservationRec) (now : PyNow)
      (proceed : List (String × σ) × String) (diff : ℚ),
      yesKeywords.any (fun k => strContains message k) = true →
      lockoutDiffSec r now = some diff →
      (diff ≤ 7200 →
        handleModificationConfirmation yesKeywords noKeywords cancelKeywords
          message userStates userId r now proceed
          = (userStates, modificationLockoutMessage r now diff))
      ∧ (7200 < diff →
        handleModificationConfirmation yesKeywords noKeywords cancelKeywords
          message userStates userId r now proceed = proceed)) := by
  constructor
  · intro σ userStates userId r now sheetsOk diff hdiff
    constructor
    · intro hle
      simp [executeReservationCancellation, hdiff, hle]
    · intro hgt
      simp [executeReservationCancellation, hdiff, not_le.mpr hgt]
  · intro σ yes no cancel message userStates userId r now proceed diff hyes hdiff
    constructor
    · intro hle
      simp [handleModificationConfirmation, hyes, hdiff, hle]
    · intro hgt
      simp [handleModificationConfirmation, hyes, hdiff, not_le.mpr hgt]

/-- C4 witness: reservation 2025-06-10 14:00; at now = 12:00:00 (exactly
7200 s before the start) the cancellation is refused with the state map
unchanged, at now = 11:59:59 (7201 s) it proceeds to the commit path;
likewise for the modification confirmation on the reply "はい". -/
theorem c4_witness :
    executeReservationCancellation [("U1", 0)] "U1"
        ⟨"RES-20250610-0001", "2025-06-10", "14:00", "15:00", "カット", "田中",
          5000⟩ ⟨2025, 6, 10, 12, 0, 0⟩ true
      = ([("U1", 0)], cancellationLockoutMessage
          ⟨"RES-20250610-0001", "2025-06-10", "14:00", "15:00", "カット", "田中",
            5000⟩ ⟨2025, 6, 10, 12, 0, 0⟩ 7200)
    ∧ executeReservationCancellation [("U1", 0)] "U1"
        ⟨"RES-20250610-0001", "2025-06-10", "14:00", "15:00", "カット", "田中",
          5000⟩ ⟨2025, 6, 10, 11, 59, 59⟩ true
      = executeReservationCancellationCommit [("U1", 0)] "U1"
          ⟨"RES-20250610-0001", "2025-06-10", "14:00", "15:00", "カット", "田中",
            5000⟩ true
    ∧ handleModificationConfirmation ["はい"] ["いいえ"] ["キャンセル"] "はい"
        [("U1", 0)] "U1"
        ⟨"RES-20250610-0001", "2025-06-10", "14:00", "15:00", "カット", "田中",
          5000⟩ ⟨2025, 6, 10, 12, 0, 0⟩ ([], "committed")
      = ([("U1", 0)], modificationLockoutMessage
          ⟨"RES-20250610-0001", "2025-06-10", "14:00", "15:00", "カット", "田中",
            5000⟩ ⟨2025, 6, 10, 12, 0, 0⟩ 7200) := by
  have h7200 : lockoutDiffSec
      ⟨"RES-20250610-0001", "2025-06-10", "14:00", "15:00", "カット", "田中",
        5000⟩ ⟨2025, 6, 10, 12, 0, 0⟩ = some 7200 := by
    rw [lockoutDiffSec_eq _ _ ⟨2025, 6, 10, 14, 0⟩ (by decide), dtDiffSameDay]
    norm_num
  have h7201 : lockoutDiffSec
      ⟨"RES-20250610-0001", "2025-06-10", "14:00", "15:00", "カット", "田中",
        5000⟩ ⟨2025, 6, 10, 11, 59, 59⟩ = some 7201 := by
    rw [lockoutDiffSec_eq _ _ ⟨2025, 6, 10, 14, 0⟩ (by decide), dtDiffSameDay]
    norm_num
  refine ⟨?_, ?_, ?_⟩
  · exact ((c4_lockout_boundary.1 Nat [("U1", 0)] "U1" _ _ true 7200
      h7200).1 (by norm_num))
  · exact ((c4_lockout_boundary.1 Nat [("U1", 0)] "U1" _ _ true 7201
      h7201).2 (by norm_num))
  · exact ((c4_lockout_boundary.2 Nat ["はい"] ["いいえ"] ["キャンセル"] "はい"
      [("U1", 0)] "U1" _ _ ([], "committed") 7200 (by decide) h7200).1
      (by norm_num))

/-- C6: whenever the body of `check_user_time_conflict` raises an internal
error, the function returns `True` (conflict) — the cross-staff same-user
check fails closed. -/
theorem c6_user_conflict_fails_closed :
    ∀ (env : ConflictEnv) (sysOffsetSec : Int)
      (dateStr startTime endTime userId : String) (excludeId : Option String)
      (e : Unit),
      checkUserTimeConflictBody env sysOffsetSec dateStr startTime endTime
        userId excludeId = .error e →
      checkUserTimeConflict env sysOffsetSec dateStr startTime endTime
        userId excludeId = true := by
  intro env s d st et u ex e h
  unfold checkUserTimeConflict
  rw [h]

/-- C6 witness: a malformed start time makes the body raise
(`strptime` `ValueError`), and the check reports a conflict. -/
theorem c6_witness :
    checkUserTimeConflictBody ⟨false, [], []⟩ 0 "2025-06-10" "25:99" "26:00"
        "U1" none = .error ()
    ∧ checkUserTimeConflict ⟨false, [], []⟩ 0 "2025-06-10" "25:99" "26:00"
        "U1" none = true := by
  refine ⟨rfl, ?_⟩
  exact c6_user_conflict_fails_closed ⟨false, [], []⟩ 0 "2025-06-10" "25:99"
    "26:00" "U1" none () rfl

/-- C10: whenever the body of `_check_final_availability` or of
`_check_modification_availability` raises an internal error, the guard
returns `{"available": True, "message": ""}` — the pre-commit re-check fails
open. -/
theorem c10_race_guards_fail_open :
    (∀ (staffAvailable userConflict : String → String → String → String → Bool)
      (services : List (String × ServiceRec)) (rd : ResvDataDict) (e : Unit),
      checkFinalAvailabilityBody staffAvailable userConflict services rd
        = .error e →
      checkFinalAvailability staffAvailable userConflict services rd
        = ⟨true, ""⟩)
    ∧ (∀ (staffAvailableEx userConflictEx :
        String → String → String → String → Option String → Bool)
      (serviceChangeOverlap : String → String → String → String →
        Option String → Bool × String × Option String)
      (r : ResvDataDict) (pending : PendingModification)
      (modificationType : String) (e : Unit),
      checkModificationAvailabilityBody staffAvailableEx userConflictEx
        serviceChangeOverlap r pending modificationType = .error e →
      checkModificationAvailability staffAvailableEx userConflictEx
        serviceChangeOverlap r pending modificationType = ⟨true, ""⟩) := by
  constructor
  · intro sa uc services rd e h
    unfold checkFinalAvailability
    rw [h]
  · intro sa uc sco r pending mt e h
    unfold checkModificationAvailability
    rw [h]

/-- C10 witness: a reservation dict with no `date` key makes both bodies
raise `KeyError`, and both guards return available. -/
theorem c10_witness :
    checkFinalAvailabilityBody (fun _ _ _ _ => false) (fun _ _ _ _ => true) []
        ⟨none, none, none, none, none, none, none, none⟩ = .error ()
    ∧ checkFinalAvailability (fun _ _ _ _ => false) (fun _ _ _ _ => true) []
        ⟨none, none, none, none, none, none, none, none⟩ = ⟨true, ""⟩
    ∧ checkModificationAvailabilityBody (fun _ _ _ _ _ => false)
        (fun _ _ _ _ _ => true) (fun _ _ _ _ _ => (false, "", none))
        ⟨none, none, none, none, none, none, none, none⟩
        ⟨none, none, none, none⟩ "time" = .error ()
    ∧ checkModificationAvailability (fun _ _ _ _ _ => false)
        (fun _ _ _ _ _ => true) (fun _ _ _ _ _ => (false, "", none))
        ⟨none, none, none, none, none, none, none, none⟩
        ⟨none, none, none, none⟩ "time" = ⟨true, ""⟩ := by
  refine ⟨rfl, ?_, rfl, ?_⟩
  · exact c10_race_guards_fail_open.1 (fun _ _ _ _ => false)
      (fun _ _ _ _ => true) [] ⟨none, none, none, none, none, none, none, none⟩
      () rfl
  · exact c10_race_guards_fail_open.2 (fun _ _ _ _ _ => false)
      (fun _ _ _ _ _ => true) (fun _ _ _ _ _ => (false, "", none))
      ⟨none, none, none, none, none, none, none, none⟩ ⟨none, none, none, none⟩
      "time" () rfl

end Salon
